import Mathlib

/-!
Shallow embedding of the CyberTerminal command console of this repository
(the `CyberTerminal` React component: argument parser `parseArgs`, command
dispatcher `executeCommand`, recall navigation `handleKeyDown`, and the
theme/timer persistence effects), together with theorems settling the
frozen claims about it.

Conventions of the embedding:
 - JavaScript strings are Lean `String`s (a list of characters); the JS
   string primitives the source uses (`trim`, `split`, `startsWith`,
   `substring`, `toLowerCase`, `toUpperCase`, `replace`, `parseInt`) are
   implemented below on `String.data` so that they both evaluate in the
   kernel and admit inductive reasoning.
 - React `useState` setters become explicit field updates of a `TermState`
   record.  Inside one `executeCommand` call the handlers read the closure
   values captured at entry (the state *before* the history append), which
   the embedding mirrors by passing both the entry state `st` and the
   accumulated state `st1`.
 - The collaborator props (`onAddTodo`, `onAddTimeLog`, ...) and the
   supabase queries are oracles supplied in an `Env`; an awaited
   collaborator call may reject, modelled as `Except.error`, which the
   dispatcher catches at its `try/catch` boundary.  Calls the source does
   not `await` cannot abort the handler and are recorded as effects.
 - Timestamps (`Date.now()`) are naturals (milliseconds); date/time
   formatting and `Math.random()` are opaque oracle fields of `Env`.
 - DOM side effects (`document.documentElement.classList`, toasts,
   scrolling, focus) are outside the model.
-/

namespace CyberTerm

/-- Whitespace test used by JS `String.prototype.trim` (ASCII range; the
console input is ASCII). -/
def isJsSpace (c : Char) : Bool :=
  c = ' ' || c = '\t' || c = '\n' || c = '\r' || c = '\x0b' || c = '\x0c'

/-- JS `s.trim()`. -/
def jsTrim (s : String) : String :=
  String.mk (((s.data.dropWhile isJsSpace).reverse.dropWhile isJsSpace).reverse)

/-- Accumulator loop of JS `String.prototype.split` with a one-character
separator: `acc` is the current field, reversed. -/
def splitChAux (sep : Char) : List Char → List Char → List (List Char)
  | [], acc => [acc.reverse]
  | c :: cs, acc =>
    if c = sep then acc.reverse :: splitChAux sep cs []
    else splitChAux sep cs (c :: acc)

/-- JS `s.split(sep)` for a one-character separator `sep`. -/
def jsSplitCh (sep : Char) (s : String) : List String :=
  (splitChAux sep s.data []).map String.mk

/-- JS `Array.prototype.join(" ")`; also used to assemble input lines from
tokens in theorem statements. -/
def joinSpace : List String → String
  | [] => ""
  | [t] => t
  | t :: ts => t ++ " " ++ joinSpace ts

/-- JS `Array.prototype.join(", ")`. -/
def joinCommaSpace : List String → String
  | [] => ""
  | [t] => t
  | t :: ts => t ++ ", " ++ joinCommaSpace ts

/-- JS `.replace(/['"]/g, '')`: delete every single- and double-quote
character. -/
def stripQuotes (s : String) : String :=
  String.mk (s.data.filter (fun c => !(c = Char.ofNat 39 || c = Char.ofNat 34)))

/-- JS `s.startsWith("--")`. -/
def startsDash2 (s : String) : Bool := s.data.take 2 = ['-', '-']

/-- JS `s.startsWith("-")`. -/
def startsDash1 (s : String) : Bool := s.data.take 1 = ['-']

/-- JS `s.substring(1)`. -/
def jsSubstring1 (s : String) : String := String.mk (s.data.drop 1)

/-- JS `s.substring(0, n)`. -/
def jsTake (n : Nat) (s : String) : String := String.mk (s.data.take n)

/-- JS `s.toLowerCase()` (ASCII). -/
def jsToLower (s : String) : String := String.mk (s.data.map Char.toLower)

/-- JS `s.toUpperCase()` (ASCII). -/
def jsToUpper (s : String) : String := String.mk (s.data.map Char.toUpper)

/-- JS `parseInt(s)` with no radix argument: skip leading whitespace and
an optional sign, then either a hexadecimal literal after a `0x`/`0X`
prefix or the longest decimal digit prefix; `none` is `NaN` (no digit
found). -/
def jsParseInt (s : String) : Option Int :=
  let t := s.data.dropWhile isJsSpace
  let signVal : Int := match t with
    | '-' :: _ => -1
    | _ => 1
  let t2 : List Char := match t with
    | '-' :: r => r
    | '+' :: r => r
    | r => r
  let isHexDig : Char → Bool := fun c =>
    c.isDigit || ('a' ≤ c && c ≤ 'f') || ('A' ≤ c && c ≤ 'F')
  let hexVal : Char → Nat := fun c =>
    if c.isDigit then c.toNat - 48
    else if 'a' ≤ c && c ≤ 'f' then c.toNat - 87
    else c.toNat - 55
  let decimal : List Char → Option Int := fun l =>
    let ds := l.takeWhile Char.isDigit
    if ds = [] then none
    else some (signVal * ((ds.foldl (fun a c => a * 10 + (c.toNat - 48)) 0 : Nat) : Int))
  match t2 with
  | '0' :: c :: r =>
    if c = 'x' || c = 'X' then
      let ds := r.takeWhile isHexDig
      if ds = [] then none
      else some (signVal * ((ds.foldl (fun a c => a * 16 + hexVal c) 0 : Nat) : Int))
    else decimal ('0' :: c :: r)
  | _ => decimal t2

/-- Truthiness of a JS string-or-undefined value: `undefined` and `""` are
falsy, every other string is truthy. -/
def truthy : Option String → Bool
  | some s => s ≠ ""
  | none => false

/-- JS `a || b` on string-or-undefined values. -/
def jsOr (a b : Option String) : Option String := if truthy a then a else b

/-- Reading `parsed[k]` from the flag store built by `parseArgs`: `none`
when the key is absent or was assigned `undefined`.  Later assignments to a
key shadow earlier ones, as for a JS object, hence the reversed lookup. -/
def lookupJs (l : List (String × Option String)) (k : String) : Option String :=
  match (l.reverse).lookup k with
  | some v => v
  | none => none

/-- The short-flag alias table of `parseArgs` (`flagMap` in the source). -/
def flagMap : String → Option String
  | "p" => some "priority"
  | "d" => some "date"
  | "t" => some "tags"
  | "h" => some "help"
  | "f" => some "format"
  | _ => none

/-- Result of `parseArgs`: the `parsed` flag store (in assignment order,
values may be `undefined` = `none`) and the `positional` tokens. -/
structure ParsedArgs where
  parsed : List (String × Option String)
  positional : List String
deriving DecidableEq, Repr

/-- Function `parseArgs` from the CyberTerminal component.  A `--` token is split on
every `=` (JS `split('=')`); `key` is the first part (dashes included) and
`value` the second part or `undefined`.  `parsed[key] = value || args[i+1]`
with the following token skipped when `value` is falsy.  A single-dash
token of length > 1 is looked up in `flagMap`; known short flags store the
next token under `--<full>` and skip it, unknown ones are dropped.  All
other tokens are positional. -/
def parseArgs : List String → ParsedArgs
  | [] => ⟨[], []⟩
  | arg :: rest =>
    if startsDash2 arg then
      let parts := jsSplitCh '=' arg
      let key := parts.headD ""
      let value : Option String := (parts.drop 1).head?
      if truthy value then
        let p := parseArgs rest
        ⟨(key, value) :: p.parsed, p.positional⟩
      else
        match rest with
        | x :: rest' =>
          let p := parseArgs rest'
          ⟨(key, some x) :: p.parsed, p.positional⟩
        | [] => ⟨[(key, none)], []⟩
    else if startsDash1 arg && arg.length > 1 then
      match flagMap (jsSubstring1 arg) with
      | some full =>
        match rest with
        | x :: rest' =>
          let p := parseArgs rest'
          ⟨("--" ++ full, some x) :: p.parsed, p.positional⟩
        | [] => ⟨[("--" ++ full, none)], []⟩
      | none => parseArgs rest
    else
      let p := parseArgs rest
      ⟨p.parsed, arg :: p.positional⟩

/-- Classification of a transcript entry (`type` in the source). -/
inductive EntryType where
  | success
  | error
  | info
deriving DecidableEq, Repr

/-- A transcript entry (`Command` interface in the source; the wall-clock
`timestamp` field carries no observable content and is omitted). -/
structure Entry where
  input : String
  output : List String
  type : EntryType
deriving DecidableEq, Repr

/-- The active time log (`{activity, startTime}`), `startTime` in
milliseconds. -/
structure TimeLog where
  activity : String
  startTime : Nat
deriving DecidableEq, Repr

/-- The component state of the console. -/
structure TermState where
  commands : List Entry
  currentInput : String
  commandHistory : List String
  historyIndex : Int
  navigationHistory : List String
  activeTimeLog : Option TimeLog
  currentTheme : String
  path : String
deriving DecidableEq, Repr

/-- A `todos` row as read by `todo.list`. -/
structure Todo where
  id : String
  text : String
  priority : String
  completed : Bool
deriving DecidableEq, Repr

/-- A `time_logs` row as read by `time.today`. -/
structure TimeLogRow where
  activity : String
  duration : Nat
deriving DecidableEq, Repr

/-- A `calendar_events` row as read by `cal.today`. -/
structure EventRow where
  title : String
  type : String
deriving DecidableEq, Repr

/-- A `notes` row as read by `note.search`. -/
structure NoteRow where
  id : String
  title : String
  tags : List String
deriving DecidableEq, Repr

/-- Outcome of an awaited supabase call: a data result, an error result
(`{ error }` non-null, handled by the `if (error)` branches), or a rejected
promise (handled by the surrounding inner `try/catch`). -/
inductive DbResult (α : Type) where
  | ok (data : α)
  | err (msg : String)
  | thrown (msg : String)
deriving DecidableEq, Repr

/-- The oracle environment of one `executeCommand` call: the clock, the
collaborator props and supabase queries, and the opaque formatting
helpers.  `addTimeLog` models the awaited `onAddTimeLog` collaborator call
of `time.start` / `time.stop`; `Except.error m` is a rejection whose
`Error` message is `m`. -/
structure Env where
  now : Nat
  todosQuery : Option String → DbResult (List Todo)
  updateTodoCompleted : String → DbResult Unit
  deleteTodo : String → DbResult Unit
  addTimeLog : Except String Unit
  timeLogsToday : DbResult (List TimeLogRow)
  eventsToday : DbResult (List EventRow)
  notesSearch : String → DbResult (List NoteRow)
  parseDate : String → Option Nat
  formatYMD : Nat → String
  formatHMS : Nat → String
  nowDateTimeStr : String
  todayStr : String
  randomPct : Nat
  timeZone : String

/-- The outward collaborator calls one `executeCommand` issued (arguments
of the fire-and-forget `onAdd*` props and of the successfully awaited
`onAddTimeLog`), plus whether a full page reload was requested. -/
structure Effects where
  todosAdded : List (String × String) := []
  timeLogsAdded : List (String × Int) := []
  eventsAdded : List (String × Nat) := []
  notesAdded : List (String × String × List String) := []
  reloaded : Bool := false
deriving DecidableEq, Repr

/-- No collaborator calls. -/
def noFx : Effects := {}

/-- JS `Math.round(d / 60000)` for a nonnegative elapsed time `d` in
milliseconds: the elapsed minutes rounded to nearest, halves up.  (For
nonnegative `x`, `Math.round x = ⌊x + 1/2⌋`, and the double division
`d / 60000` is exact at every half-integer boundary, so the identity with
`⌊(d + 30000) / 60000⌋` is exact.) -/
def jsRoundMinutes (d : Nat) : Nat := (d + 30000) / 60000

/-- Function `getCurrentPageName` from the source: `pathMap` lookup with `unknown`
fallback. -/
def getCurrentPageName (path : String) : String :=
  match path with
  | "/" => "dashboard"
  | "/dashboard" => "dashboard"
  | "/todos" => "todos"
  | "/timelog" => "timelog"
  | "/calendar" => "calendar"
  | "/notes" => "notes"
  | _ => "unknown"

/-- The per-command detailed help table (`helpTexts` in the source). -/
def helpTexts : String → Option (List String)
  | "todo.add" => some
      ["todo.add <task> [-p|--priority=low|medium|high]",
       "Add a new todo item",
       "Examples:",
       "• todo.add \x27Complete project\x27 -p high",
       "• todo.add \x27Review code\x27 --priority=medium"]
  | "todo.list" => some
      ["todo.list [-p|--priority=low|medium|high]",
       "List todos, optionally filtered by priority",
       "Examples:",
       "• todo.list",
       "• todo.list -p high"]
  | "time.start" => some
      ["time.start <activity>",
       "Start time tracking for an activity",
       "Auto-stops previous activity if running",
       "Examples:",
       "• time.start \x27Deep work session\x27",
       "• time.start \x27Meeting with team\x27"]
  | "nav.dash" => some
      ["nav.dash | goto.dashboard",
       "Navigate to dashboard page",
       "Examples:",
       "• nav.dash",
       "• goto.dashboard"]
  | _ => none

/-- The no-argument `help` output. -/
def helpAll : List String :=
  ["ENHANCED TERMINAL COMMANDS v3.0:",
   "",
   "📍 NAVIGATION:",
   "├── nav.dash, goto.dashboard - Dashboard",
   "├── nav.todos, goto.tasks - Todo list",
   "├── nav.time, goto.timelog - Time tracking",
   "├── nav.calendar, goto.calendar - Calendar",
   "├── nav.notes, goto.notes - Notes",
   "└── nav.back - Go back",
   "",
   "✅ TODO MANAGEMENT:",
   "├── todo.add <task> [-p high|medium|low]",
   "├── todo.list [-p priority]",
   "├── todo.complete <id>",
   "├── todo.delete <id>",
   "└── todo.priority <id> -p <priority>",
   "",
   "⏱️ TIME TRACKING:",
   "├── time.start <activity> - Start tracking",
   "├── time.stop - Stop current session",
   "├── time.status - Show active session",
   "├── time.log <activity> <minutes> - Manual entry",
   "└── time.today - Today\x27s summary",
   "",
   "📅 CALENDAR & NOTES:",
   "├── cal.add <event> [-d YYYY-MM-DD]",
   "├── cal.today - Today\x27s events",
   "├── note.add <title> <content> [-t tags]",
   "└── note.search <keyword>",
   "",
   "🔧 SYSTEM:",
   "├── sys.status - System information",
   "├── theme.change -[green/purple/red/black]",
   "├── history - Command history",
   "├── clear - Clear terminal",
   "└── help <command> - Detailed help",
   "",
   "💡 Use \x27help <command>\x27 for detailed usage"]

/-- The usage/option listing emitted by `theme.change` without argument. -/
def themeUsageOutput : List String :=
  ["ERROR: Theme required. Usage: theme.change -[green/purple/red/black]",
   "",
   "Available themes:",
   "├── green - Matrix-style green theme",
   "├── purple - Cyberpunk purple theme (default)",
   "├── red - Alert red theme",
   "└── black - Monochrome black/white theme"]

/-- Result of one arm of the dispatcher switch: the `output` lines and
`type` it assigned, the state after the setters it invoked (starting from
the state `st1` that already holds the history append), the collaborator
calls it issued, and whether it returned early (skipping the transcript
entry). -/
structure BranchOut where
  output : List String
  type : EntryType
  st : TermState
  fx : Effects
  early : Bool := false

/-- The `help` handler. -/
def helpCmd (pa : ParsedArgs) (st1 : TermState) : Except String BranchOut :=
  if pa.positional.length > 0 then
    let hc := pa.positional.headD ""
    let output := (helpTexts hc).getD [s!"No help available for \x27{hc}\x27"]
    .ok { output := output, type := .success, st := st1, fx := noFx }
  else
    .ok { output := helpAll, type := .success, st := st1, fx := noFx }

/-- A `nav.*` / `goto.*` handler: push the current path, navigate. -/
def navGoCmd (st1 : TermState) (target line : String) : Except String BranchOut :=
  .ok { output := [line], type := .success,
        st := { st1 with navigationHistory := st1.navigationHistory ++ [st1.path],
                         path := target },
        fx := noFx }

/-- The `nav.back` handler. -/
def navBackCmd (st1 : TermState) : Except String BranchOut :=
  if st1.navigationHistory.length > 0 then
    let lastPath := st1.navigationHistory.getLastD ""
    .ok { output := [s!"[✓] Navigated back to {lastPath}"], type := .success,
          st := { st1 with navigationHistory := st1.navigationHistory.dropLast,
                           path := lastPath },
          fx := noFx }
  else
    .ok { output := ["No navigation history available"], type := .error, st := st1, fx := noFx }

/-- The `nav.refresh` / `data.refresh` handler: full reload, early return. -/
def navRefreshCmd (st1 : TermState) : Except String BranchOut :=
  .ok { output := [], type := .info, st := st1, fx := { reloaded := true }, early := true }

/-- The `todo.add` handler. -/
def todoAddCmd (pa : ParsedArgs) (st1 : TermState) : Except String BranchOut :=
  if pa.positional.length < 1 then
    .ok { output := ["ERROR: Task description required"], type := .error, st := st1, fx := noFx }
  else
    let priority := (jsOr (lookupJs pa.parsed "--priority")
      (jsOr (lookupJs pa.parsed "-p") (some "medium"))).getD ""
    let taskText := stripQuotes (joinSpace pa.positional)
    if priority ∈ ["low", "medium", "high"] then
      .ok { output := [s!"[✓] Task added: \"{taskText}\" (priority: {priority})"],
            type := .success, st := st1, fx := { todosAdded := [(taskText, priority)] } }
    else
      .ok { output := ["ERROR: Invalid priority. Use low, medium, or high"], type := .error,
            st := st1, fx := noFx }

/-- The `todo.list` handler. -/
def todoListCmd (env : Env) (pa : ParsedArgs) (st1 : TermState) : Except String BranchOut :=
  let pf := jsOr (lookupJs pa.parsed "--priority") (lookupJs pa.parsed "-p")
  let filt := if truthy pf then pf else none
  match env.todosQuery filt with
  | .thrown _ =>
    .ok { output := ["ERROR: Failed to fetch todos"], type := .error, st := st1, fx := noFx }
  | .err m =>
    .ok { output := [s!"ERROR: {m}"], type := .error, st := st1, fx := noFx }
  | .ok todos =>
    if todos.length = 0 then
      .ok { output := ["No todos found"], type := .info, st := st1, fx := noFx }
    else
      let cnt := todos.length
      let lines := todos.enum.map (fun p =>
        let i1 := p.1 + 1
        let status := if p.2.completed then "✅" else "⏳"
        let pr := jsToUpper p.2.priority
        let text := p.2.text
        let shortId := jsTake 8 p.2.id
        s!"{i1}. {status} [{pr}] {text} (ID: {shortId})")
      .ok { output := s!"Found {cnt} todo(s):" :: "" :: lines, type := .success,
            st := st1, fx := noFx }

/-- The `todo.complete` handler. -/
def todoCompleteCmd (env : Env) (pa : ParsedArgs) (st1 : TermState) : Except String BranchOut :=
  if pa.positional.length < 1 then
    .ok { output := ["ERROR: Todo ID required"], type := .error, st := st1, fx := noFx }
  else
    let todoId := pa.positional.headD ""
    match env.updateTodoCompleted todoId with
    | .thrown _ =>
      .ok { output := ["ERROR: Failed to complete todo"], type := .error, st := st1, fx := noFx }
    | .err m =>
      .ok { output := [s!"ERROR: {m}"], type := .error, st := st1, fx := noFx }
    | .ok _ =>
      let short := jsTake 8 todoId
      .ok { output := [s!"[✓] Todo {short} marked as completed"], type := .success,
            st := st1, fx := noFx }

/-- The `todo.delete` handler. -/
def todoDeleteCmd (env : Env) (pa : ParsedArgs) (st1 : TermState) : Except String BranchOut :=
  if pa.positional.length < 1 then
    .ok { output := ["ERROR: Todo ID required"], type := .error, st := st1, fx := noFx }
  else
    let todoId := pa.positional.headD ""
    match env.deleteTodo todoId with
    | .thrown _ =>
      .ok { output := ["ERROR: Failed to delete todo"], type := .error, st := st1, fx := noFx }
    | .err m =>
      .ok { output := [s!"ERROR: {m}"], type := .error, st := st1, fx := noFx }
    | .ok _ =>
      let short := jsTake 8 todoId
      .ok { output := [s!"[✓] Todo {short} deleted"], type := .success, st := st1, fx := noFx }

/-- The `time.start` handler.  With an active log it first awaits the
`onAddTimeLog` collaborator (whose rejection aborts to the dispatcher
`catch`), then starts the new log. -/
def timeStartCmd (env : Env) (pa : ParsedArgs) (st1 : TermState) : Except String BranchOut :=
  if pa.positional.length < 1 then
    .ok { output := ["ERROR: Activity name required"], type := .error, st := st1, fx := noFx }
  else
    let activity := stripQuotes (joinSpace pa.positional)
    let startLine := s!"[✓] Started tracking: \"{activity}\""
    match st1.activeTimeLog with
    | some tl =>
      let duration := jsRoundMinutes (env.now - tl.startTime)
      match env.addTimeLog with
      | .error m => .error m
      | .ok _ =>
        let prev := tl.activity
        .ok { output := [s!"[✓] Stopped: \"{prev}\" ({duration} minutes)", startLine],
              type := .success,
              st := { st1 with activeTimeLog := some ⟨activity, env.now⟩ },
              fx := { timeLogsAdded := [(prev, (duration : Int))] } }
    | none =>
      .ok { output := [startLine], type := .success,
            st := { st1 with activeTimeLog := some ⟨activity, env.now⟩ }, fx := noFx }

/-- The `time.stop` handler. -/
def timeStopCmd (env : Env) (st1 : TermState) : Except String BranchOut :=
  match st1.activeTimeLog with
  | none =>
    .ok { output := ["No active time tracking session"], type := .error, st := st1, fx := noFx }
  | some tl =>
    let duration := jsRoundMinutes (env.now - tl.startTime)
    match env.addTimeLog with
    | .error m => .error m
    | .ok _ =>
      let act := tl.activity
      .ok { output := [s!"[✓] Stopped: \"{act}\" ({duration} minutes)"], type := .success,
            st := { st1 with activeTimeLog := none },
            fx := { timeLogsAdded := [(act, (duration : Int))] } }

/-- The `time.status` handler. -/
def timeStatusCmd (env : Env) (st1 : TermState) : Except String BranchOut :=
  match st1.activeTimeLog with
  | none =>
    .ok { output := ["No active time tracking session"], type := .info, st := st1, fx := noFx }
  | some tl =>
    let elapsed := jsRoundMinutes (env.now - tl.startTime)
    let act := tl.activity
    let started := env.formatHMS tl.startTime
    .ok { output := ["ACTIVE TIME TRACKING:",
                     s!"├── Activity: {act}",
                     s!"├── Started: {started}",
                     s!"└── Elapsed: {elapsed} minutes"],
          type := .success, st := st1, fx := noFx }

/-- The `time.log` handler (manual entry; the `onAddTimeLog` call is not
awaited here, so it cannot abort the handler). -/
def timeLogCmd (pa : ParsedArgs) (st1 : TermState) : Except String BranchOut :=
  if pa.positional.length < 2 then
    .ok { output := ["ERROR: Usage: time.log <activity> <duration_minutes>"], type := .error,
          st := st1, fx := noFx }
  else
    let durOpt := jsParseInt (pa.positional.getLastD "")
    let activity := stripQuotes (joinSpace pa.positional.dropLast)
    match durOpt with
    | none =>
      .ok { output := ["ERROR: Duration must be a number"], type := .error, st := st1, fx := noFx }
    | some d =>
      .ok { output := [s!"[✓] Time logged: \"{activity}\" - {d} minutes"], type := .success,
            st := st1, fx := { timeLogsAdded := [(activity, d)] } }

/-- The `time.today` handler. -/
def timeTodayCmd (env : Env) (st1 : TermState) : Except String BranchOut :=
  match env.timeLogsToday with
  | .thrown _ =>
    .ok { output := ["ERROR: Failed to fetch time logs"], type := .error, st := st1, fx := noFx }
  | .err m =>
    .ok { output := [s!"ERROR: {m}"], type := .error, st := st1, fx := noFx }
  | .ok logs =>
    let totalTime := logs.foldl (fun s l => s + l.duration) 0
    let tenths := (totalTime + 3) / 6
    let whole := tenths / 10
    let frac := tenths % 10
    let hoursStr := if frac = 0 then s!"{whole}" else s!"{whole}.{frac}"
    let cnt := logs.length
    let today := env.todayStr
    let header :=
      [s!"TODAY\x27S TIME SUMMARY ({today}):",
       s!"├── Total time: {totalTime} minutes ({hoursStr}h)",
       s!"├── Sessions: {cnt}",
       ""]
    let recents :=
      if logs.length ≠ 0 then
        "Recent sessions:" :: (logs.take 5).enum.map (fun p =>
          let i1 := p.1 + 1
          let act := p.2.activity
          let dur := p.2.duration
          s!"{i1}. {act} - {dur}m")
      else []
    .ok { output := header ++ recents, type := .success, st := st1, fx := noFx }

/-- The `cal.add` handler. -/
def calAddCmd (env : Env) (pa : ParsedArgs) (st1 : TermState) : Except String BranchOut :=
  if pa.positional.length < 1 then
    .ok { output := ["ERROR: Event title required"], type := .error, st := st1, fx := noFx }
  else
    let dateStr := jsOr (lookupJs pa.parsed "--date") (lookupJs pa.parsed "-d")
    let title := stripQuotes (joinSpace pa.positional)
    if truthy dateStr then
      match env.parseDate (dateStr.getD "") with
      | none =>
        .ok { output := ["ERROR: Invalid date format. Use YYYY-MM-DD"], type := .error,
              st := st1, fx := noFx }
      | some d =>
        let ymd := env.formatYMD d
        .ok { output := [s!"[✓] Event added: \"{title}\" on {ymd}"], type := .success,
              st := st1, fx := { eventsAdded := [(title, d)] } }
    else
      let d := env.now
      let ymd := env.formatYMD d
      .ok { output := [s!"[✓] Event added: \"{title}\" on {ymd}"], type := .success,
            st := st1, fx := { eventsAdded := [(title, d)] } }

/-- The `cal.today` handler. -/
def calTodayCmd (env : Env) (st1 : TermState) : Except String BranchOut :=
  match env.eventsToday with
  | .thrown _ =>
    .ok { output := ["ERROR: Failed to fetch calendar events"], type := .error,
          st := st1, fx := noFx }
  | .err m =>
    .ok { output := [s!"ERROR: {m}"], type := .error, st := st1, fx := noFx }
  | .ok events =>
    let today := env.todayStr
    let rest :=
      if events.length = 0 then ["No events scheduled for today"]
      else events.enum.map (fun p =>
        let i1 := p.1 + 1
        let title := p.2.title
        let ty := p.2.type
        s!"{i1}. {title} ({ty})")
    .ok { output := s!"TODAY\x27S EVENTS ({today}):" :: "" :: rest, type := .success,
          st := st1, fx := noFx }

/-- The `note.add` handler (`onAddNote` is not awaited). -/
def noteAddCmd (pa : ParsedArgs) (st1 : TermState) : Except String BranchOut :=
  if pa.positional.length < 2 then
    .ok { output := ["ERROR: Usage: note.add <title> <content> [-t tag1,tag2]"], type := .error,
          st := st1, fx := noFx }
  else
    let tagsStr := jsOr (lookupJs pa.parsed "--tags") (lookupJs pa.parsed "-t")
    let tags := if truthy tagsStr then (jsSplitCh ',' (tagsStr.getD "")).map jsTrim else []
    let title := stripQuotes (pa.positional.headD "")
    let content := stripQuotes (joinSpace (pa.positional.drop 1))
    let tagLines :=
      if tags.length > 0 then
        let tj := joinCommaSpace tags
        [s!"    Tags: {tj}"]
      else []
    .ok { output := [s!"[✓] Note created: \"{title}\""] ++ tagLines, type := .success,
          st := st1, fx := { notesAdded := [(title, content, tags)] } }

/-- The `note.search` handler. -/
def noteSearchCmd (env : Env) (pa : ParsedArgs) (st1 : TermState) : Except String BranchOut :=
  if pa.positional.length < 1 then
    .ok { output := ["ERROR: Search keyword required"], type := .error, st := st1, fx := noFx }
  else
    let keyword := joinSpace pa.positional
    match env.notesSearch keyword with
    | .thrown _ =>
      .ok { output := ["ERROR: Failed to search notes"], type := .error, st := st1, fx := noFx }
    | .err m =>
      .ok { output := [s!"ERROR: {m}"], type := .error, st := st1, fx := noFx }
    | .ok notes =>
      let cnt := notes.length
      let lines := (notes.enum.map (fun p =>
        let i1 := p.1 + 1
        let title := p.2.title
        let short := jsTake 8 p.2.id
        let tagLine :=
          if p.2.tags.length ≠ 0 then
            let tj := joinCommaSpace p.2.tags
            [s!"    Tags: {tj}"]
          else []
        s!"{i1}. {title} (ID: {short})" :: tagLine)).flatten
      .ok { output := s!"Found {cnt} note(s) matching \"{keyword}\":" :: "" :: lines,
            type := .success, st := st1, fx := noFx }

/-- The `sys.status` handler. -/
def sysStatusCmd (env : Env) (st1 : TermState) : Except String BranchOut :=
  let currentPage := getCurrentPageName st1.path
  let active := match st1.activeTimeLog with
    | some tl => tl.activity
    | none => "None"
  let pct := env.randomPct
  let nowStr := env.nowDateTimeStr
  .ok { output := ["SYSTEM STATUS:",
                   "├── Neural Interface: ONLINE",
                   "├── Productivity Matrix: ACTIVE",
                   "├── Database: CONNECTED",
                   s!"├── Current Location: {currentPage}",
                   s!"├── Active Time Log: {active}",
                   s!"├── Memory Usage: {pct}%",
                   "└── Threat Level: MINIMAL",
                   "",
                   s!"Current Time: {nowStr}"],
        type := .success, st := st1, fx := noFx }

/-- The `history` handler.  It reads the `commandHistory` closure value
captured before the current line was appended (`st`, not `st1`), takes
`slice(-10)` and numbers each line with `length - 10 + index + 1` — a JS
number that is zero or negative when fewer than 10 entries exist. -/
def historyCmd (st st1 : TermState) : Except String BranchOut :=
  let hist := st.commandHistory
  let n := hist.length
  let listed := hist.drop (n - 10)
  let lines := listed.enum.map (fun p =>
    let num : Int := (n : Int) - 10 + p.1 + 1
    let cmd := p.2
    s!"{num}. {cmd}")
  .ok { output := "COMMAND HISTORY:" :: "" :: lines, type := .success, st := st1, fx := noFx }

/-- The `clear` handler: empties the transcript and input, early return. -/
def clearCmd (st1 : TermState) : Except String BranchOut :=
  .ok { output := [], type := .info,
        st := { st1 with commands := [], currentInput := "" },
        fx := noFx, early := true }

/-- The `theme.change` handler. -/
def themeChangeCmd (pa : ParsedArgs) (st1 : TermState) : Except String BranchOut :=
  if pa.positional.length < 1 then
    .ok { output := themeUsageOutput, type := .error, st := st1, fx := noFx }
  else
    let themeArg := pa.positional.headD ""
    let theme := if startsDash1 themeArg then jsSubstring1 themeArg else themeArg
    if theme ∈ ["green", "purple", "red", "black"] then
      let themeU := jsToUpper theme
      .ok { output := [s!"[✓] Theme changed to {themeU}",
                       "Color scheme updated successfully",
                       "Theme persisted to local storage"],
            type := .success, st := { st1 with currentTheme := theme }, fx := noFx }
    else
      .ok { output := [s!"ERROR: Invalid theme \x27{theme}\x27",
                       "Available themes: green, purple, red, black"],
            type := .error, st := st1, fx := noFx }

/-- The `hack.time` handler. -/
def hackTimeCmd (env : Env) (st1 : TermState) : Except String BranchOut :=
  let ts := env.now
  let lt := env.nowDateTimeStr
  let tz := env.timeZone
  let active := match st1.activeTimeLog with
    | some tl => tl.activity
    | none => "None"
  .ok { output := ["> Accessing temporal matrix...",
                   s!"> Current timestamp: {ts}",
                   s!"> Local time: {lt}",
                   s!"> Time zone: {tz}",
                   s!"> Active session: {active}"],
        type := .success, st := st1, fx := noFx }

/-- The unrecognized-command arm. -/
def unknownCmd (command : String) (st1 : TermState) : Except String BranchOut :=
  .ok { output := [s!"Command \x27{command}\x27 not recognized.",
                   "Type \x27help\x27 for available commands.",
                   "Use \x27help <command>\x27 for detailed usage."],
        type := .error, st := st1, fx := noFx }

/-- The dispatcher switch of `executeCommand`.  `st` is the state captured
at entry (the handlers' closure reads), `st1` the state holding the
history append. -/
def runSwitch (env : Env) (st st1 : TermState) (command : String) (pa : ParsedArgs) :
    Except String BranchOut :=
  match command with
  | "help" => helpCmd pa st1
  | "nav.dash" => navGoCmd st1 "/dashboard" "[✓] Navigated to dashboard"
  | "goto.dashboard" => navGoCmd st1 "/dashboard" "[✓] Navigated to dashboard"
  | "nav.todos" => navGoCmd st1 "/todos" "[✓] Navigated to todos"
  | "goto.tasks" => navGoCmd st1 "/todos" "[✓] Navigated to todos"
  | "nav.time" => navGoCmd st1 "/timelog" "[✓] Navigated to time log"
  | "goto.timelog" => navGoCmd st1 "/timelog" "[✓] Navigated to time log"
  | "nav.calendar" => navGoCmd st1 "/calendar" "[✓] Navigated to calendar"
  | "goto.calendar" => navGoCmd st1 "/calendar" "[✓] Navigated to calendar"
  | "nav.notes" => navGoCmd st1 "/notes" "[✓] Navigated to notes"
  | "goto.notes" => navGoCmd st1 "/notes" "[✓] Navigated to notes"
  | "nav.back" => navBackCmd st1
  | "nav.refresh" => navRefreshCmd st1
  | "todo.add" => todoAddCmd pa st1
  | "todo.list" => todoListCmd env pa st1
  | "todo.complete" => todoCompleteCmd env pa st1
  | "todo.delete" => todoDeleteCmd env pa st1
  | "time.start" => timeStartCmd env pa st1
  | "time.stop" => timeStopCmd env st1
  | "time.status" => timeStatusCmd env st1
  | "time.log" => timeLogCmd pa st1
  | "time.today" => timeTodayCmd env st1
  | "cal.add" => calAddCmd env pa st1
  | "cal.today" => calTodayCmd env st1
  | "note.add" => noteAddCmd pa st1
  | "note.search" => noteSearchCmd env pa st1
  | "sys.status" => sysStatusCmd env st1
  | "history" => historyCmd st st1
  | "data.refresh" => navRefreshCmd st1
  | "clear" => clearCmd st1
  | "theme.change" => themeChangeCmd pa st1
  | "hack.time" => hackTimeCmd env st1
  | _ => unknownCmd command st1

/-- After-the-switch assembly: a thrown handler is converted by the
dispatcher `catch` into the generic error entry; an early return skips
the entry; otherwise the entry is appended and the input cleared. -/
def finishRun (st1 : TermState) (trimmed : String) (r : Except String BranchOut) :
    TermState × Effects :=
  match r with
  | .ok b =>
    if b.early then (b.st, b.fx)
    else
      ({ b.st with
          commands := b.st.commands ++ [⟨trimmed, b.output, b.type⟩],
          currentInput := "" }, b.fx)
  | .error m =>
    ({ st1 with
        commands := st1.commands ++
          [⟨trimmed, ["ERROR: Command execution failed", s!"Details: {m}"], .error⟩],
        currentInput := "" }, noFx)

/-- Body of `executeCommand` for a non-empty trimmed line: append to the
command history, reset the recall cursor, tokenize, dispatch, assemble. -/
def execTrimmed (env : Env) (st : TermState) (trimmed : String) : TermState × Effects :=
  let st1 := { st with commandHistory := st.commandHistory ++ [trimmed], historyIndex := -1 }
  let args := jsSplitCh ' ' trimmed
  let command := jsToLower (args.headD "")
  let pa := parseArgs (args.drop 1)
  finishRun st1 trimmed (runSwitch env st st1 command pa)

/-- Function `executeCommand` of the CyberTerminal component. -/
def executeCommand (env : Env) (st : TermState) (input : String) : TermState × Effects :=
  let trimmed := jsTrim input
  if trimmed = "" then (st, noFx)
  else execTrimmed env st trimmed

/-- The browser key-value store slice the console persists into. -/
structure KVStore where
  cyberTerminalTheme : Option String
  activeTimeLog : Option TimeLog
deriving DecidableEq, Repr

/-- Theme rehydration on mount: `if (savedTheme)` adopts the stored string
verbatim (no validation), otherwise falls back to `purple`.  A stored
empty string is falsy and also falls back. -/
def loadTheme (store : KVStore) : String :=
  match store.cyberTerminalTheme with
  | some t => if t = "" then "purple" else t
  | none => "purple"

/-- The persistence effect for the theme: on every change of
`currentTheme` the value is written to the key-value store. -/
def saveThemeEffect (st : TermState) (store : KVStore) : KVStore :=
  { store with cyberTerminalTheme := some st.currentTheme }

/-- Function `handleKeyDown` for ArrowUp (recall previous). -/
def onArrowUp (st : TermState) : TermState :=
  if st.commandHistory.length > 0 then
    let newIndex : Int :=
      if st.historyIndex = -1 then (st.commandHistory.length : Int) - 1
      else max 0 (st.historyIndex - 1)
    { st with historyIndex := newIndex,
              currentInput := st.commandHistory.getD newIndex.toNat "" }
  else st

/-- Function `handleKeyDown` for ArrowDown (recall next). -/
def onArrowDown (st : TermState) : TermState :=
  if st.historyIndex ≠ -1 then
    let newIndex := st.historyIndex + 1
    if newIndex ≥ (st.commandHistory.length : Int) then
      { st with historyIndex := -1, currentInput := "" }
    else
      { st with historyIndex := newIndex,
                currentInput := st.commandHistory.getD newIndex.toNat "" }
  else st

/-- A concrete oracle environment for witnesses. -/
def env0 : Env :=
  { now := 90000,
    todosQuery := fun _ => .ok [],
    updateTodoCompleted := fun _ => .ok (),
    deleteTodo := fun _ => .ok (),
    addTimeLog := .ok (),
    timeLogsToday := .ok [],
    eventsToday := .ok [],
    notesSearch := fun _ => .ok [],
    parseDate := fun _ => none,
    formatYMD := fun _ => "1970-01-01",
    formatHMS := fun _ => "00:00:00",
    nowDateTimeStr := "1970-01-01 00:01:30",
    todayStr := "1970-01-01",
    randomPct := 0,
    timeZone := "UTC" }

/-- A concrete console state for witnesses. -/
def st0 : TermState :=
  { commands := [],
    currentInput := "",
    commandHistory := [],
    historyIndex := -1,
    navigationHistory := [],
    activeTimeLog := none,
    currentTheme := "purple",
    path := "/" }

example : (executeCommand env0 st0 "help").1.commandHistory = ["help"] := by decide

example :
    (executeCommand env0 st0 "todo.add \"Ship release\" -p high").2.todosAdded
      = [("Ship release", "high")] := by decide

example :
    (executeCommand env0 { st0 with activeTimeLog := some ⟨"Work", 0⟩ }
      "time.start Email").2.timeLogsAdded = [("Work", 2)] := by decide

example : parseArgs ["--x=a=b"] = ⟨[("--x", some "a")], []⟩ := by decide

example : (executeCommand env0 st0 "theme.change -green").1.currentTheme = "purple" := by decide

example :
    (executeCommand env0 { st0 with commandHistory := ["a"] } "history").1.commands
      = [⟨"history", ["COMMAND HISTORY:", "", "-8. a"], .success⟩] := by decide

/-! Section: Generic lemmas about the JS string primitives -/

theorem mk_data (s : String) : String.mk s.data = s := by
  cases s
  rfl

theorem data_append (a b : String) : (a ++ b).data = a.data ++ b.data := rfl

theorem empty_append_str (s : String) : "" ++ s = s := rfl

theorem append_empty_str (s : String) : s ++ "" = s := by
  show String.mk (s.data ++ []) = s
  rw [List.append_nil, mk_data]

theorem toString_str (s : String) : toString s = s := rfl

theorem mk_eq_empty_iff (l : List Char) : String.mk l = "" ↔ l = [] := by
  constructor
  · intro h
    simpa using congrArg String.data h
  · intro h
    rw [h]

theorem splitChAux_sepFree (sep : Char) (xs : List Char) (acc : List Char)
    (h : sep ∉ xs) : splitChAux sep xs acc = [acc.reverse ++ xs] := by
  induction xs generalizing acc with
  | nil => simp [splitChAux]
  | cons c cs ih =>
    have hc : ¬ c = sep := by
      intro hc
      exact h (hc ▸ List.mem_cons_self c cs)
    have hcs : sep ∉ cs := fun hh => h (List.mem_cons_of_mem _ hh)
    simp only [splitChAux, if_neg hc, ih _ hcs]
    simp

theorem splitChAux_append (sep : Char) (xs ys acc : List Char) (h : sep ∉ xs) :
    splitChAux sep (xs ++ sep :: ys) acc = (acc.reverse ++ xs) :: splitChAux sep ys [] := by
  induction xs generalizing acc with
  | nil => simp [splitChAux]
  | cons c cs ih =>
    have hc : ¬ c = sep := by
      intro hc
      exact h (hc ▸ List.mem_cons_self c cs)
    have hcs : sep ∉ cs := fun hh => h (List.mem_cons_of_mem _ hh)
    simp only [List.cons_append, splitChAux, if_neg hc, List.append_eq]
    rw [ih (c :: acc) hcs]
    simp

theorem jsSplitCh_sepFree (sep : Char) (s : String) (h : sep ∉ s.data) :
    jsSplitCh sep s = [s] := by
  unfold jsSplitCh
  rw [splitChAux_sepFree sep s.data [] h]
  simp [mk_data]

theorem joinSpace_cons (t u : String) (ts : List String) :
    joinSpace (t :: u :: ts) = t ++ " " ++ joinSpace (u :: ts) := rfl

theorem jsSplitCh_joinSpace (l : List String) (hne : l ≠ [])
    (hsp : ∀ t ∈ l, ' ' ∉ t.data) :
    jsSplitCh ' ' (joinSpace l) = l := by
  induction l with
  | nil => exact absurd rfl hne
  | cons t ts ih =>
    cases ts with
    | nil => exact jsSplitCh_sepFree ' ' t (hsp t (List.mem_cons_self t []))
    | cons u us =>
      have hdata : (joinSpace (t :: u :: us)).data
          = t.data ++ ' ' :: (joinSpace (u :: us)).data := by
        rw [joinSpace_cons, data_append, data_append]
        simp
      have h2 := ih (by simp) (fun x hx => hsp x (List.mem_cons_of_mem _ hx))
      unfold jsSplitCh at h2 ⊢
      rw [hdata, splitChAux_append ' ' t.data _ [] (hsp t (List.mem_cons_self _ _))]
      simp only [List.map_cons, List.nil_append, mk_data, h2]
      simp [mk_data]

theorem joinSpace_ne_empty (t : String) (ts : List String) (ht : t ≠ "")
    (hsp : ∀ x ∈ t :: ts, ' ' ∉ x.data) : joinSpace (t :: ts) ≠ "" := by
  intro h0
  have hs := jsSplitCh_joinSpace (t :: ts) (by simp) hsp
  rw [h0] at hs
  have h1 : jsSplitCh ' ' "" = [""] := rfl
  rw [h1] at hs
  have := (List.cons.injEq _ _ _ _).mp hs.symm
  exact ht (this.1.symm ▸ rfl)

/-- Reduction of `executeCommand` on a token-assembled input line. -/
theorem executeCommand_tokens (env : Env) (st : TermState) (l : List String)
    (hne : l ≠ []) (hhd : l.headD "" ≠ "") (hsp : ∀ t ∈ l, ' ' ∉ t.data)
    (htr : jsTrim (joinSpace l) = joinSpace l) :
    executeCommand env st (joinSpace l) =
      finishRun
        { st with commandHistory := st.commandHistory ++ [joinSpace l], historyIndex := -1 }
        (joinSpace l)
        (runSwitch env st
          { st with commandHistory := st.commandHistory ++ [joinSpace l], historyIndex := -1 }
          (jsToLower (l.headD "")) (parseArgs (l.drop 1))) := by
  obtain ⟨t, ts, rfl⟩ : ∃ t ts, l = t :: ts := by
    cases l with
    | nil => exact absurd rfl hne
    | cons a as => exact ⟨a, as, rfl⟩
  have hne2 : joinSpace (t :: ts) ≠ "" := joinSpace_ne_empty t ts (by simpa using hhd) hsp
  have hs := jsSplitCh_joinSpace (t :: ts) hne hsp
  unfold executeCommand
  rw [htr, if_neg hne2]
  unfold execTrimmed
  rw [hs]

/-! Section: Dispatch equations of the switch -/

theorem runSwitch_todoAdd (env : Env) (st st1 : TermState) (pa : ParsedArgs) :
    runSwitch env st st1 "todo.add" pa = todoAddCmd pa st1 := rfl

theorem runSwitch_todoList (env : Env) (st st1 : TermState) (pa : ParsedArgs) :
    runSwitch env st st1 "todo.list" pa = todoListCmd env pa st1 := rfl

theorem runSwitch_timeStart (env : Env) (st st1 : TermState) (pa : ParsedArgs) :
    runSwitch env st st1 "time.start" pa = timeStartCmd env pa st1 := rfl

theorem runSwitch_themeChange (env : Env) (st st1 : TermState) (pa : ParsedArgs) :
    runSwitch env st st1 "theme.change" pa = themeChangeCmd pa st1 := rfl

theorem runSwitch_history (env : Env) (st st1 : TermState) (pa : ParsedArgs) :
    runSwitch env st st1 "history" pa = historyCmd st st1 := rfl

/-- No arm of the dispatcher switch modifies the command history or the
recall cursor accumulated in `st1`. -/
theorem runSwitch_preserves_history (env : Env) (st st1 : TermState) (c : String)
    (pa : ParsedArgs) (b : BranchOut) (h : runSwitch env st st1 c pa = .ok b) :
    b.st.commandHistory = st1.commandHistory ∧ b.st.historyIndex = st1.historyIndex := by
  unfold runSwitch helpCmd navGoCmd navBackCmd navRefreshCmd todoAddCmd todoListCmd
    todoCompleteCmd todoDeleteCmd timeStartCmd timeStopCmd timeStatusCmd timeLogCmd
    timeTodayCmd calAddCmd calTodayCmd noteAddCmd noteSearchCmd sysStatusCmd historyCmd
    clearCmd themeChangeCmd hackTimeCmd unknownCmd at h
  simp only [] at h
  repeat' split at h
  all_goals
    first
    | (injection h with h2; subst h2; exact ⟨rfl, rfl⟩)
    | injection h

/-- The body for a non-empty trimmed line always records exactly the
trimmed line in the command history and resets the recall cursor. -/
theorem execTrimmed_history (env : Env) (st : TermState) (trimmed : String) :
    (execTrimmed env st trimmed).1.commandHistory = st.commandHistory ++ [trimmed] ∧
    (execTrimmed env st trimmed).1.historyIndex = -1 := by
  unfold execTrimmed
  simp only []
  cases hr : runSwitch env st
      { st with commandHistory := st.commandHistory ++ [trimmed], historyIndex := -1 }
      (jsToLower ((jsSplitCh ' ' trimmed).headD ""))
      (parseArgs ((jsSplitCh ' ' trimmed).drop 1)) with
  | ok b =>
    have hp := runSwitch_preserves_history _ _ _ _ _ b hr
    unfold finishRun
    simp only []
    by_cases hb : b.early = true
    · rw [if_pos hb]
      exact ⟨hp.1, hp.2⟩
    · rw [if_neg hb]
      exact ⟨hp.1, hp.2⟩
  | error m =>
    unfold finishRun
    simp

/-- C6: a submission that trims to empty is a complete no-op (state
unchanged, no transcript entry, no history entry); every other submission
appends exactly the trimmed line to the command history and resets the
recall cursor to `-1`, regardless of which command it is and how it is
classified. -/
theorem submission_history_invariant (env : Env) (st : TermState) (input : String) :
    (jsTrim input = "" → executeCommand env st input = (st, noFx)) ∧
    (jsTrim input ≠ "" →
      (executeCommand env st input).1.commandHistory
          = st.commandHistory ++ [jsTrim input] ∧
      (executeCommand env st input).1.historyIndex = -1) := by
  constructor
  · intro h
    unfold executeCommand
    simp only []
    rw [if_pos h]
  · intro h
    unfold executeCommand
    simp only []
    rw [if_neg h]
    exact execTrimmed_history env st (jsTrim input)

theorem submission_history_invariant_witness :
    (executeCommand env0 st0 "   ").1 = st0 ∧
    (executeCommand env0 st0 "sys.status").1.commandHistory = ["sys.status"] ∧
    (executeCommand env0 st0 "sys.status").1.historyIndex = -1 :=
  ⟨by rw [(submission_history_invariant env0 st0 "   ").1 (by decide)],
   by rw [((submission_history_invariant env0 st0 "sys.status").2 (by decide)).1]; rfl,
   ((submission_history_invariant env0 st0 "sys.status").2 (by decide)).2⟩

/-! Section: Recall navigation (claim C4) -/

/-- One recall-previous step from the fresh cursor. -/
theorem onArrowUp_from_fresh (s : TermState) (hL : 0 < s.commandHistory.length)
    (h : s.historyIndex = -1) :
    onArrowUp s = { s with
        historyIndex := (s.commandHistory.length : Int) - 1,
        currentInput := s.commandHistory.getD (s.commandHistory.length - 1) "" } := by
  unfold onArrowUp
  rw [if_pos hL, if_pos h]
  simp only []
  rw [show ((s.commandHistory.length : Int) - 1).toNat = s.commandHistory.length - 1 by omega]

/-- One recall-previous step from cursor `L - k` with room to go down. -/
theorem onArrowUp_step (s : TermState) (k : Nat) (hk : 1 ≤ k)
    (hkL : k + 1 ≤ s.commandHistory.length)
    (hidx : s.historyIndex = (s.commandHistory.length : Int) - k) :
    onArrowUp s = { s with
        historyIndex := (s.commandHistory.length : Int) - (k + 1),
        currentInput := s.commandHistory.getD (s.commandHistory.length - (k + 1)) "" } := by
  unfold onArrowUp
  rw [if_pos (by omega : s.commandHistory.length > 0), hidx,
    if_neg (by omega : ¬((s.commandHistory.length : Int) - k = -1)),
    max_eq_right (by omega : (0 : Int) ≤ (s.commandHistory.length : Int) - k - 1)]
  simp only []
  rw [show ((s.commandHistory.length : Int) - k - 1).toNat
        = s.commandHistory.length - (k + 1) by omega,
    show ((s.commandHistory.length : Int) - k - 1)
        = (s.commandHistory.length : Int) - (k + 1) by ring]

theorem arrowUp_iterate (st : TermState) (h0 : st.historyIndex = -1) (k : Nat)
    (hk1 : 1 ≤ k) (hk : k ≤ st.commandHistory.length) :
    (onArrowUp^[k] st).commandHistory = st.commandHistory ∧
    (onArrowUp^[k] st).historyIndex = (st.commandHistory.length : Int) - k ∧
    (onArrowUp^[k] st).currentInput
      = st.commandHistory.getD (st.commandHistory.length - k) "" := by
  induction k with
  | zero => exact absurd hk1 (by omega)
  | succ k ih =>
    rcases Nat.eq_zero_or_pos k with hk0 | hkpos
    · subst hk0
      rw [Function.iterate_one, onArrowUp_from_fresh st (by omega) h0]
      exact ⟨rfl, by push_cast; ring, rfl⟩
    · have ih2 := ih hkpos (by omega)
      have hstep := onArrowUp_step (onArrowUp^[k] st) k hkpos
        (by rw [ih2.1]; omega) (by rw [ih2.2.1, ih2.1])
      rw [ih2.1] at hstep
      rw [Function.iterate_succ_apply', hstep]
      exact ⟨rfl, by push_cast; ring, rfl⟩

/-- One recall-next step from the most recent entry: cursor resets. -/
theorem onArrowDown_last (s : TermState) (hL : 0 < s.commandHistory.length)
    (hidx : s.historyIndex = (s.commandHistory.length : Int) - 1) :
    onArrowDown s = { s with historyIndex := -1, currentInput := "" } := by
  unfold onArrowDown
  rw [hidx, if_pos (by omega : ¬((s.commandHistory.length : Int) - 1 = -1))]
  simp only []
  rw [if_pos (by omega : (s.commandHistory.length : Int) - 1 + 1
      ≥ (s.commandHistory.length : Int))]

/-- One recall-next step with further entries below. -/
theorem onArrowDown_step (s : TermState) (m : Nat) (hm : 1 ≤ m)
    (hmL : m + 1 ≤ s.commandHistory.length)
    (hidx : s.historyIndex = (s.commandHistory.length : Int) - ((m : Nat) + 1 : Nat)) :
    onArrowDown s = { s with
        historyIndex := (s.commandHistory.length : Int) - m,
        currentInput := s.commandHistory.getD (s.commandHistory.length - m) "" } := by
  unfold onArrowDown
  rw [hidx, if_pos (by push_cast; omega :
      ¬((s.commandHistory.length : Int) - ((m : Nat) + 1 : Nat) = -1))]
  simp only []
  rw [if_neg (by push_cast; omega :
      ¬((s.commandHistory.length : Int) - ((m : Nat) + 1 : Nat) + 1
        ≥ (s.commandHistory.length : Int)))]
  rw [show ((s.commandHistory.length : Int) - ((m : Nat) + 1 : Nat) + 1)
        = (s.commandHistory.length : Int) - m by push_cast; ring]
  rw [show ((s.commandHistory.length : Int) - m).toNat = s.commandHistory.length - m by omega]

theorem arrowDown_reset (m : Nat) : ∀ (st : TermState), 1 ≤ m →
    m ≤ st.commandHistory.length →
    st.historyIndex = (st.commandHistory.length : Int) - m →
    (onArrowDown^[m] st).historyIndex = -1 ∧ (onArrowDown^[m] st).currentInput = "" := by
  induction m with
  | zero => intro st hm1; exact absurd hm1 (by omega)
  | succ m ih =>
    intro st hm1 hmL hidx
    rcases Nat.eq_zero_or_pos m with h0 | hpos
    · subst h0
      rw [Function.iterate_one,
        onArrowDown_last st (by omega) (by rw [hidx]; push_cast; ring)]
      exact ⟨rfl, rfl⟩
    · rw [Function.iterate_succ_apply,
        onArrowDown_step st m hpos (by omega) (by rw [hidx])]
      exact ih _ hpos (show m ≤ st.commandHistory.length by omega) rfl

/-- C4: from a fresh recall cursor (`-1`, empty input) over a non-empty
history of length `L`, `n ≤ L` recall-previous steps successively show
`history[L-1], …, history[L-n]`, and `n` recall-next steps then return the
cursor to `-1` with empty current input. -/
theorem recall_roundtrip (st : TermState) (n : Nat) (h0 : st.historyIndex = -1)
    (hi : st.currentInput = "") (hL : 0 < st.commandHistory.length)
    (hn : n ≤ st.commandHistory.length) :
    (∀ k, k < n → (onArrowUp^[k + 1] st).currentInput
        = st.commandHistory.getD (st.commandHistory.length - 1 - k) "") ∧
    (onArrowDown^[n] (onArrowUp^[n] st)).historyIndex = -1 ∧
    (onArrowDown^[n] (onArrowUp^[n] st)).currentInput = "" := by
  constructor
  · intro k hk
    rw [(arrowUp_iterate st h0 (k + 1) (by omega) (by omega)).2.2]
    congr 1
    omega
  · rcases Nat.eq_zero_or_pos n with h | h
    · subst h
      simpa using ⟨h0, hi⟩
    · have hup := arrowUp_iterate st h0 n h hn
      exact arrowDown_reset n (onArrowUp^[n] st) h (hup.1 ▸ hn)
        (by rw [hup.2.1, hup.1])

/-- A three-entry history for the recall witness. -/
def stH : TermState := { st0 with commandHistory := ["a", "b", "c"] }

theorem recall_roundtrip_witness :
    (onArrowUp^[2] stH).currentInput = "b" ∧
    (onArrowDown^[2] (onArrowUp^[2] stH)).historyIndex = -1 ∧
    (onArrowDown^[2] (onArrowUp^[2] stH)).currentInput = "" :=
  ⟨(recall_roundtrip stH 2 rfl rfl (by decide) (by decide)).1 1 (by decide),
   (recall_roundtrip stH 2 rfl rfl (by decide) (by decide)).2.1,
   (recall_roundtrip stH 2 rfl rfl (by decide) (by decide)).2.2⟩

/-! Section: Theme rehydration (claim C9) -/

/-- C9 counterexample: a stored theme outside the enumeration is adopted
verbatim on rehydration instead of falling back to `purple`. -/
theorem loadTheme_counterexample :
    loadTheme ⟨some "bogus", none⟩ = "bogus" ∧ ("bogus" : String) ≠ "purple" := by decide

/-- C9 (amended): rehydration falls back to `purple` only when the stored
value is absent (or empty, which is falsy); any other stored string —
valid or not — becomes the current theme verbatim, without validation. -/
theorem loadTheme_amended (a : Option TimeLog) :
    loadTheme ⟨none, a⟩ = "purple" ∧ loadTheme ⟨some "", a⟩ = "purple" ∧
    ∀ t : String, t ≠ "" → loadTheme ⟨some t, a⟩ = t := by
  refine ⟨rfl, rfl, ?_⟩
  intro t ht
  unfold loadTheme
  simp [ht]

theorem loadTheme_amended_witness :
    loadTheme ⟨none, none⟩ = "purple" ∧ loadTheme ⟨some "green", none⟩ = "green" :=
  ⟨(loadTheme_amended none).1, (loadTheme_amended none).2.2 "green" (by decide)⟩

/-! Section: Long-flag parsing (claim C2) -/

theorem startsDash2_mk (l : List Char) : startsDash2 (String.mk ('-' :: '-' :: l)) = true := by
  simp [startsDash2]

theorem eqCh_not_mem_dashes (nm : List Char) (hnm : '=' ∉ nm) : '=' ∉ ('-' :: '-' :: nm) := by
  simp only [List.mem_cons]
  push_neg
  exact ⟨by decide, by decide, hnm⟩

theorem splitChAux_two (sep : Char) (a b : List Char) (ha : sep ∉ a) (hb : sep ∉ b) :
    splitChAux sep (a ++ sep :: b) [] = [a, b] := by
  rw [splitChAux_append sep a b [] ha, splitChAux_sepFree sep b [] hb]
  simp

theorem splitChAux_three (sep : Char) (a b c : List Char) (ha : sep ∉ a) (hb : sep ∉ b)
    (hc : sep ∉ c) : splitChAux sep (a ++ sep :: (b ++ sep :: c)) [] = [a, b, c] := by
  rw [splitChAux_append sep a _ [] ha, splitChAux_append sep b _ [] hb,
    splitChAux_sepFree sep c [] hc]
  simp

/-- C2 counterexample: the code splits a long flag on every `=` and keeps
only the second part, so the value of `--x=a=b` is `a`, not `a=b`; and a
trailing long flag with no `=` and no next token stores `undefined`
(`none`), not the empty string. -/
theorem parseArgs_longFlag_counterexample :
    parseArgs ["--x=a=b"] = ⟨[("--x", some "a")], []⟩ ∧
    some ("a" : String) ≠ some ("a=b" : String) ∧
    parseArgs ["--y"] = ⟨[("--y", (none : Option String))], []⟩ ∧
    (none : Option String) ≠ some "" := by
  refine ⟨by decide, by decide, by decide, by decide⟩

/-- C2 (amended): a token beginning with `--` is split on every `=`; the
flag name is the part before the first `=` and the value is the part
between the first and second `=` (any later parts are discarded).  When
the token has no `=`, or the part after the first `=` is empty, the next
token is consumed as the value and removed from the positional stream;
when no next token exists the value is `undefined` (absent), not the
empty string. -/
theorem parseArgs_longFlag_amended (nm v w : List Char)
    (hnm : '=' ∉ nm) (hv : '=' ∉ v) (hw : '=' ∉ w) (hvne : v ≠ []) :
    (∀ rest : List String,
      parseArgs (String.mk ('-' :: '-' :: (nm ++ '=' :: v)) :: rest)
        = ⟨(String.mk ('-' :: '-' :: nm), some (String.mk v)) :: (parseArgs rest).parsed,
           (parseArgs rest).positional⟩) ∧
    (∀ rest : List String,
      parseArgs (String.mk ('-' :: '-' :: (nm ++ '=' :: (v ++ '=' :: w))) :: rest)
        = ⟨(String.mk ('-' :: '-' :: nm), some (String.mk v)) :: (parseArgs rest).parsed,
           (parseArgs rest).positional⟩) ∧
    (∀ (tok : String) (rest : List String),
      parseArgs (String.mk ('-' :: '-' :: nm) :: tok :: rest)
        = ⟨(String.mk ('-' :: '-' :: nm), some tok) :: (parseArgs rest).parsed,
           (parseArgs rest).positional⟩) ∧
    (parseArgs [String.mk ('-' :: '-' :: nm)]
        = ⟨[(String.mk ('-' :: '-' :: nm), none)], []⟩) ∧
    (∀ (tok : String) (rest : List String),
      parseArgs (String.mk ('-' :: '-' :: (nm ++ ['='])) :: tok :: rest)
        = ⟨(String.mk ('-' :: '-' :: nm), some tok) :: (parseArgs rest).parsed,
           (parseArgs rest).positional⟩) := by
  have hdash := eqCh_not_mem_dashes nm hnm
  have htr : truthy (some (String.mk v)) = true := by
    simp [truthy, mk_eq_empty_iff, hvne]
  refine ⟨?_, ?_, ?_, ?_, ?_⟩
  · intro rest
    conv_lhs => unfold parseArgs
    rw [if_pos (startsDash2_mk _)]
    have hparts : jsSplitCh '=' (String.mk ('-' :: '-' :: (nm ++ '=' :: v)))
        = [String.mk ('-' :: '-' :: nm), String.mk v] := by
      unfold jsSplitCh
      rw [show (String.mk ('-' :: '-' :: (nm ++ '=' :: v))).data
            = ('-' :: '-' :: nm) ++ '=' :: v from by simp]
      rw [splitChAux_two '=' _ _ hdash hv]
      rfl
    rw [hparts]
    simp only [List.headD_cons, List.drop_succ_cons, List.drop_zero, List.head?_cons]
    rw [if_pos htr]
  · intro rest
    conv_lhs => unfold parseArgs
    rw [if_pos (startsDash2_mk _)]
    have hparts : jsSplitCh '=' (String.mk ('-' :: '-' :: (nm ++ '=' :: (v ++ '=' :: w))))
        = [String.mk ('-' :: '-' :: nm), String.mk v, String.mk w] := by
      unfold jsSplitCh
      rw [show (String.mk ('-' :: '-' :: (nm ++ '=' :: (v ++ '=' :: w)))).data
            = ('-' :: '-' :: nm) ++ '=' :: (v ++ '=' :: w) from by simp]
      rw [splitChAux_three '=' _ _ _ hdash hv hw]
      rfl
    rw [hparts]
    simp only [List.headD_cons, List.drop_succ_cons, List.drop_zero, List.head?_cons]
    rw [if_pos htr]
  · intro tok rest
    conv_lhs => unfold parseArgs
    rw [if_pos (startsDash2_mk _), jsSplitCh_sepFree '=' _ hdash]
    simp [truthy]
  · conv_lhs => unfold parseArgs
    rw [if_pos (startsDash2_mk _), jsSplitCh_sepFree '=' _ hdash]
    simp [truthy]
  · intro tok rest
    conv_lhs => unfold parseArgs
    rw [if_pos (startsDash2_mk _)]
    have hparts : jsSplitCh '=' (String.mk ('-' :: '-' :: (nm ++ ['='])))
        = [String.mk ('-' :: '-' :: nm), ""] := by
      unfold jsSplitCh
      rw [show (String.mk ('-' :: '-' :: (nm ++ ['=']))).data
            = ('-' :: '-' :: nm) ++ '=' :: ([] : List Char) from by simp]
      rw [splitChAux_two '=' _ _ hdash (by simp)]
      rfl
    rw [hparts]
    simp [truthy]

theorem parseArgs_longFlag_witness :
    parseArgs ["--k=v=w", "pos"] = ⟨[("--k", some "v")], ["pos"]⟩ :=
  ((parseArgs_longFlag_amended ['k'] ['v'] ['w'] (by decide) (by decide) (by decide)
      (by decide)).2.1 ["pos"]).trans (by decide)

/-! Section: The `history` command (claim C8) -/

/-- C8 counterexample: with a single-entry history, the listed entry is
numbered `-8`, not `1` (the printed index is `length - 10 + position + 1`,
which is not the 1-based absolute position when fewer than 10 entries
exist). -/
theorem history_numbering_counterexample :
    (executeCommand env0 { st0 with commandHistory := ["time.status"] } "history").1.commands
      = [⟨"history", ["COMMAND HISTORY:", "", "-8. time.status"], .success⟩] ∧
    ("-8. time.status" : String) ≠ "1. time.status" :=
  ⟨by decide, by decide⟩

/-- C8 (amended): `history` lists the most recent `min(n, 10)` entries of
the pre-submission command history, each numbered with the JS value
`n - 10 + index + 1`; this equals the 1-based absolute position only when
`n ≥ 10`, and is zero or negative when fewer than 10 entries exist. -/
theorem history_numbering_amended (env : Env) (st : TermState)
    (hL : 0 < st.commandHistory.length) :
    ∃ e : Entry,
      (executeCommand env st "history").1.commands = st.commands ++ [e] ∧
      e.input = "history" ∧ e.type = .success ∧
      e.output.length = 2 + min st.commandHistory.length 10 ∧
      (∀ i, i < min st.commandHistory.length 10 →
        e.output.getD (i + 2) ""
          = toString ((st.commandHistory.length : Int) - 10 + i + 1) ++ ". "
            ++ st.commandHistory.getD
                (st.commandHistory.length - min st.commandHistory.length 10 + i) "") ∧
      (10 ≤ st.commandHistory.length → ∀ i : Nat, i < 10 →
        ((st.commandHistory.length : Int) - 10 + i + 1)
          = ((st.commandHistory.length - 10 + i : Nat) : Int) + 1) := by
  have hred : executeCommand env st "history"
      = finishRun
          { st with commandHistory := st.commandHistory ++ ["history"], historyIndex := -1 }
          "history"
          (runSwitch env st
            { st with commandHistory := st.commandHistory ++ ["history"], historyIndex := -1 }
            "history" (parseArgs [])) :=
    executeCommand_tokens env st ["history"] (by decide) (by decide) (by decide) (by decide)
  rw [hred, runSwitch_history]
  unfold historyCmd finishRun
  simp only []
  rw [if_neg (by decide : ¬(false = true))]
  refine ⟨_, rfl, rfl, rfl, ?_, ?_, ?_⟩
  · simp only [List.length_cons, List.length_map, List.enum_length, List.length_drop]
    omega
  · intro i hi
    have hidx : st.commandHistory.length - 10 + i < st.commandHistory.length := by omega
    rw [List.getD_cons_succ, List.getD_cons_succ, List.getD_eq_getElem?_getD,
      List.getElem?_map, List.getElem?_enum, List.getElem?_drop,
      List.getElem?_eq_getElem hidx]
    simp only [Option.map_some', Option.getD_some]
    rw [show st.commandHistory.length - min st.commandHistory.length 10 + i
          = st.commandHistory.length - 10 + i from by omega,
      List.getD_eq_getElem?_getD, List.getElem?_eq_getElem hidx]
    simp only [Option.getD_some]
    simp [toString_str, empty_append_str, append_empty_str]
  · intro h10 i hi
    omega

theorem history_numbering_amended_witness :
    ∃ e : Entry,
      (executeCommand env0 stH "history").1.commands = stH.commands ++ [e] ∧
      e.input = "history" ∧ e.type = .success ∧
      e.output.length = 2 + min stH.commandHistory.length 10 ∧
      (∀ i, i < min stH.commandHistory.length 10 →
        e.output.getD (i + 2) ""
          = toString ((stH.commandHistory.length : Int) - 10 + i + 1) ++ ". "
            ++ stH.commandHistory.getD
                (stH.commandHistory.length - min stH.commandHistory.length 10 + i) "") ∧
      (10 ≤ stH.commandHistory.length → ∀ i : Nat, i < 10 →
        ((stH.commandHistory.length : Int) - 10 + i + 1)
          = ((stH.commandHistory.length - 10 + i : Nat) : Int) + 1) :=
  history_numbering_amended env0 stH (by decide)

/-! Section: Reduction helpers for whole-line invocations -/

theorem length_not_lt_one (l : List String) (h : l ≠ []) : ¬(l.length < 1) := by
  cases l
  · exact absurd rfl h
  · simp

theorem startsDash2_false_of_dash1 (t : String) (h : startsDash1 t = false) :
    startsDash2 t = false := by
  unfold startsDash1 startsDash2 at *
  cases t with | mk l => ?_
  cases l with
  | nil => simp
  | cons a l2 =>
    simp [List.take] at h
    cases l2 <;> simp [List.take, h]

/-- Reduction of `executeCommand` on `cmd` plus argument tokens, for a
lower-case command word. -/
theorem executeCommand_cons (env : Env) (st : TermState) (cmd : String)
    (args : List String) (hcmd : jsToLower cmd = cmd) (hcne : cmd ≠ "")
    (hcs : ' ' ∉ cmd.data) (hargs : ∀ t ∈ args, ' ' ∉ t.data)
    (htr : jsTrim (joinSpace (cmd :: args)) = joinSpace (cmd :: args)) :
    executeCommand env st (joinSpace (cmd :: args))
      = finishRun
          { st with
              commandHistory := st.commandHistory ++ [joinSpace (cmd :: args)],
              historyIndex := -1 }
          (joinSpace (cmd :: args))
          (runSwitch env st
            { st with
                commandHistory := st.commandHistory ++ [joinSpace (cmd :: args)],
                historyIndex := -1 }
            cmd (parseArgs args)) := by
  rw [executeCommand_tokens env st (cmd :: args) (by simp)
    (by simpa using hcne)
    (fun t ht => by
      rcases List.mem_cons.mp ht with h1 | h1
      · subst h1; exact hcs
      · exact hargs t h1) htr]
  simp only [List.headD_cons, List.drop_succ_cons, List.drop_zero, hcmd]

theorem jsOr_chain_truthy (a b c : Option String) (v : String)
    (h : jsOr a b = some v) (hv : truthy (some v) = true) :
    jsOr a (jsOr b c) = some v := by
  by_cases t1 : truthy a = true
  · rw [jsOr, if_pos t1] at h
    rw [jsOr, if_pos t1]
    exact h
  · rw [jsOr, if_neg t1] at h
    rw [jsOr, if_neg t1, jsOr, if_pos (h ▸ hv)]
    exact h

theorem jsOr_chain_falsy (a b c : Option String)
    (h : truthy (jsOr a b) = false) : jsOr a (jsOr b c) = c := by
  by_cases t1 : truthy a = true
  · rw [jsOr, if_pos t1] at h
    exact absurd t1 (by simp [h])
  · rw [jsOr, if_neg t1] at h
    rw [jsOr, if_neg t1, jsOr, if_neg (by simp [h])]

theorem parseArgs_single_plain (t : String) (h2 : startsDash2 t = false)
    (h1 : startsDash1 t = false) : parseArgs [t] = ⟨[], [t]⟩ := by
  conv_lhs => unfold parseArgs
  rw [if_neg (by simp [h2]), if_neg (by simp [h1])]
  rfl

theorem parseArgs_single_shortUnknown (t : String) (h2 : startsDash2 t = false)
    (h1 : startsDash1 t = true) (hlen : t.length > 1)
    (hflag : flagMap (jsSubstring1 t) = none) : parseArgs [t] = ⟨[], []⟩ := by
  conv_lhs => unfold parseArgs
  rw [if_neg (by simp [h2]), if_pos (by simp [h1, hlen]), hflag]
  rfl

/-- Full run of a `time.start` invocation whose awaited collaborator call
rejects: the dispatcher `catch` converts it into the generic error entry
and no handler state change survives. -/
theorem timeStart_throw_run (env : Env) (st : TermState) (args : List String)
    (tl : TimeLog) (m : String)
    (hargs : ∀ t ∈ args, ' ' ∉ t.data)
    (htr : jsTrim (joinSpace ("time.start" :: args)) = joinSpace ("time.start" :: args))
    (hpos : (parseArgs args).positional ≠ [])
    (hact : st.activeTimeLog = some tl)
    (hfail : env.addTimeLog = .error m) :
    executeCommand env st (joinSpace ("time.start" :: args))
      = ({ st with
            commands := st.commands ++
              [⟨joinSpace ("time.start" :: args),
                ["ERROR: Command execution failed", "Details: " ++ m], .error⟩],
            currentInput := "",
            commandHistory := st.commandHistory ++ [joinSpace ("time.start" :: args)],
            historyIndex := -1 }, noFx) := by
  rw [executeCommand_cons env st "time.start" args (by decide) (by decide) (by decide)
      hargs htr,
    runSwitch_timeStart]
  unfold timeStartCmd
  simp only []
  rw [if_neg (length_not_lt_one _ hpos), hact]
  simp only []
  rw [hfail]
  unfold finishRun
  simp [toString_str, append_empty_str, empty_append_str]

/-! Section: Smart time tracking (claims C1 and C10) -/

/-- An env whose awaited `onAddTimeLog` collaborator rejects. -/
def envThrow : Env := { env0 with addTimeLog := .error "network unreachable" }

/-- An env whose todos query reports an error result. -/
def envDb : Env := { env0 with todosQuery := fun _ => .err "connection reset" }

/-- An env whose todos query error message coincides with a parse-level
error text. -/
def envErr : Env := { env0 with todosQuery := fun _ => .err "Task description required" }

/-- A state with an active timer started at time 0. -/
def stT : TermState := { st0 with activeTimeLog := some ⟨"Work", 0⟩ }

/-- C1 counterexample: with a 90-second elapsed interval the persisted
duration is `Math.round(1.5) = 2` minutes, while the whole-minute floor of
the interval is `90000 / 60000 = 1`. -/
theorem timeStart_floor_counterexample :
    (executeCommand env0 stT "time.start Email").2.timeLogsAdded = [("Work", 2)] ∧
    (90000 : Nat) / 60000 = 1 ∧ ((2 : Int) ≠ (1 : Int)) :=
  ⟨by decide, by decide, by decide⟩

/-- C1 (amended): for every `time.start B` while an Active Timer for `A`
exists and the collaborator call succeeds, exactly one TimeEntry is
persisted for `A` whose duration is the interval rounded to the *nearest*
whole minute (`Math.round`, i.e. `⌊(elapsed + 30000) / 60000⌋`, not the
floor), one output line reports the stop and one the start, and afterward
the Active Timer holds the processed label of `B` with the current time as
its start. -/
theorem timeStart_implicitStop_rounds (env : Env) (st : TermState) (args : List String)
    (A : String) (s0 : Nat)
    (hargs : ∀ t ∈ args, ' ' ∉ t.data)
    (htr : jsTrim (joinSpace ("time.start" :: args)) = joinSpace ("time.start" :: args))
    (hpos : (parseArgs args).positional ≠ [])
    (hact : st.activeTimeLog = some ⟨A, s0⟩)
    (hok : env.addTimeLog = .ok ())
    (hmono : s0 ≤ env.now) :
    (executeCommand env st (joinSpace ("time.start" :: args))).2.timeLogsAdded
        = [(A, (jsRoundMinutes (env.now - s0) : Int))] ∧
    (executeCommand env st (joinSpace ("time.start" :: args))).1.activeTimeLog
        = some ⟨stripQuotes (joinSpace (parseArgs args).positional), env.now⟩ ∧
    (executeCommand env st (joinSpace ("time.start" :: args))).1.commands
        = st.commands ++
          [⟨joinSpace ("time.start" :: args),
            ["[✓] Stopped: \"" ++ A ++ "\" ("
                ++ toString (jsRoundMinutes (env.now - s0)) ++ " minutes)",
             "[✓] Started tracking: \""
                ++ stripQuotes (joinSpace (parseArgs args).positional) ++ "\""],
            .success⟩] := by
  rw [executeCommand_cons env st "time.start" args (by decide) (by decide) (by decide)
      hargs htr,
    runSwitch_timeStart]
  unfold timeStartCmd
  simp only []
  rw [if_neg (length_not_lt_one _ hpos), hact]
  simp only []
  rw [hok]
  unfold finishRun
  simp [toString_str, append_empty_str, empty_append_str]

theorem timeStart_implicitStop_rounds_witness :
    (executeCommand env0 stT "time.start Email").2.timeLogsAdded = [("Work", (2 : Int))] ∧
    (executeCommand env0 stT "time.start Email").1.activeTimeLog = some ⟨"Email", 90000⟩ ∧
    (executeCommand env0 stT "time.start Email").1.commands
      = stT.commands ++
        [⟨"time.start Email",
          ["[✓] Stopped: \"Work\" (2 minutes)", "[✓] Started tracking: \"Email\""],
          .success⟩] :=
  timeStart_implicitStop_rounds env0 stT ["Email"] "Work" 0
    (by decide) (by decide) (by decide) rfl rfl (by decide)

/-- C10: when the collaborator call persisting the implicitly-stopped
previous entry rejects during `time.start`, the command yields a single
error-classified transcript entry, the previous timer stays active with
its original start time, no timer is started for the requested activity,
and nothing is persisted. -/
theorem timeStart_failure_preserves_timer (env : Env) (st : TermState)
    (args : List String) (tl : TimeLog) (m : String)
    (hargs : ∀ t ∈ args, ' ' ∉ t.data)
    (htr : jsTrim (joinSpace ("time.start" :: args)) = joinSpace ("time.start" :: args))
    (hpos : (parseArgs args).positional ≠ [])
    (hact : st.activeTimeLog = some tl)
    (hfail : env.addTimeLog = .error m) :
    (executeCommand env st (joinSpace ("time.start" :: args))).1.activeTimeLog = some tl ∧
    (executeCommand env st (joinSpace ("time.start" :: args))).1.commands
        = st.commands ++
          [⟨joinSpace ("time.start" :: args),
            ["ERROR: Command execution failed", "Details: " ++ m], .error⟩] ∧
    (executeCommand env st (joinSpace ("time.start" :: args))).2 = noFx := by
  rw [timeStart_throw_run env st args tl m hargs htr hpos hact hfail]
  exact ⟨hact, rfl, rfl⟩

theorem timeStart_failure_preserves_timer_witness :
    (executeCommand envThrow stT "time.start Email").1.activeTimeLog
        = some ⟨"Work", 0⟩ ∧
    (executeCommand envThrow stT "time.start Email").2 = noFx :=
  ⟨(timeStart_failure_preserves_timer envThrow stT ["Email"] ⟨"Work", 0⟩
      "network unreachable" (by decide) (by decide) (by decide) rfl rfl).1,
   (timeStart_failure_preserves_timer envThrow stT ["Email"] ⟨"Work", 0⟩
      "network unreachable" (by decide) (by decide) (by decide) rfl rfl).2.2⟩

/-! Section: Collaborator failure reporting (claim C7) -/

theorem runSwitch_timeStop (env : Env) (st st1 : TermState) (pa : ParsedArgs) :
    runSwitch env st st1 "time.stop" pa = timeStopCmd env st1 := rfl

theorem runSwitch_todoComplete (env : Env) (st st1 : TermState) (pa : ParsedArgs) :
    runSwitch env st st1 "todo.complete" pa = todoCompleteCmd env pa st1 := rfl

theorem runSwitch_todoDelete (env : Env) (st st1 : TermState) (pa : ParsedArgs) :
    runSwitch env st st1 "todo.delete" pa = todoDeleteCmd env pa st1 := rfl

theorem runSwitch_timeToday (env : Env) (st st1 : TermState) (pa : ParsedArgs) :
    runSwitch env st st1 "time.today" pa = timeTodayCmd env st1 := rfl

theorem runSwitch_calToday (env : Env) (st st1 : TermState) (pa : ParsedArgs) :
    runSwitch env st st1 "cal.today" pa = calTodayCmd env st1 := rfl

theorem runSwitch_noteSearch (env : Env) (st st1 : TermState) (pa : ParsedArgs) :
    runSwitch env st st1 "note.search" pa = noteSearchCmd env pa st1 := rfl

/-- Reduction of `executeCommand` on a single lower-case command word. -/
theorem executeCommand_single (env : Env) (st : TermState) (cmd : String)
    (hcmd : jsToLower cmd = cmd) (hcne : cmd ≠ "") (hcs : ' ' ∉ cmd.data)
    (htr : jsTrim cmd = cmd) :
    executeCommand env st cmd
      = finishRun
          { st with commandHistory := st.commandHistory ++ [cmd], historyIndex := -1 }
          cmd
          (runSwitch env st
            { st with commandHistory := st.commandHistory ++ [cmd], historyIndex := -1 }
            cmd (parseArgs [])) :=
  executeCommand_cons env st cmd [] hcmd hcne hcs (by intro t ht; cases ht) htr

/-- An env whose todos query rejects (inner-catch thrown path). -/
def envThrownList : Env := { env0 with todosQuery := fun _ => .thrown "db exploded" }

/-- An env whose today time-logs query rejects (inner-catch thrown path). -/
def envThrownToday : Env := { env0 with timeLogsToday := .thrown "db exploded" }

/-- C7 counterexample: the two failure origins cannot be distinguished by
inspecting the output, and the output does not always carry the
collaborator's message.  A collaborator error-result failure of
`todo.list` whose message is `Task description required` produces exactly
the same output line and classification as the parse-level failure of
`todo.add` without arguments; and a thrown (rejected) `todo.list` query
with message `db exploded` is reported by the fixed line
`ERROR: Failed to fetch todos`, which does not carry the message `m` at
all. -/
theorem collaborator_error_prefix_counterexample :
    (executeCommand envErr st0 "todo.list").1.commands
      = [⟨"todo.list", ["ERROR: Task description required"], .error⟩] ∧
    (executeCommand env0 st0 "todo.add").1.commands
      = [⟨"todo.add", ["ERROR: Task description required"], .error⟩] ∧
    (executeCommand envThrownList st0 "todo.list").1.commands
      = [⟨"todo.list", ["ERROR: Failed to fetch todos"], .error⟩] :=
  ⟨by decide, by decide, by decide⟩

/-- C7 (amended): every collaborator failure is caught locally — it never
escapes the dispatcher and yields exactly one error-classified transcript
entry — but how the message is reported depends on the failure path.  A
rejection of the awaited `onAddTimeLog` call (`time.start` with an active
timer, `time.stop`) reaches the dispatcher's outer catch and is reported
with the distinct prefix `ERROR: Command execution failed` plus
`Details: <m>`.  A collaborator error-result is reported as `ERROR: <m>`,
the same prefix parse-level errors use.  A rejection caught by a
handler's inner try/catch (`todo.list`, `todo.complete`, `todo.delete`,
`time.today`, `cal.today`, `note.search`) is reported by a fixed generic
line that does not carry the collaborator's message at all.  So the
output carries the message only on the first two paths, and a prefix
distinguishes the failure origin from parse-level errors only on the
first. -/
theorem collaborator_error_reporting_amended :
    (∀ (env : Env) (st : TermState) (args : List String) (tl : TimeLog) (m : String),
      (∀ t ∈ args, ' ' ∉ t.data) →
      jsTrim (joinSpace ("time.start" :: args)) = joinSpace ("time.start" :: args) →
      (parseArgs args).positional ≠ [] →
      st.activeTimeLog = some tl →
      env.addTimeLog = .error m →
      (executeCommand env st (joinSpace ("time.start" :: args))).1.commands
        = st.commands ++
          [⟨joinSpace ("time.start" :: args),
            ["ERROR: Command execution failed", "Details: " ++ m], .error⟩]) ∧
    (∀ (env : Env) (st : TermState) (tl : TimeLog) (m : String),
      st.activeTimeLog = some tl →
      env.addTimeLog = .error m →
      (executeCommand env st "time.stop").1.commands
        = st.commands ++
          [⟨"time.stop", ["ERROR: Command execution failed", "Details: " ++ m],
            .error⟩]) ∧
    (∀ (env : Env) (st : TermState) (m : String),
      (∀ f, env.todosQuery f = .err m) →
      (executeCommand env st "todo.list").1.commands
        = st.commands ++ [⟨"todo.list", ["ERROR: " ++ m], .error⟩]) ∧
    (∀ (env : Env) (st : TermState) (args : List String) (m : String),
      (∀ t ∈ args, ' ' ∉ t.data) →
      jsTrim (joinSpace ("todo.complete" :: args)) = joinSpace ("todo.complete" :: args) →
      (parseArgs args).positional ≠ [] →
      (∀ id, env.updateTodoCompleted id = .err m) →
      (executeCommand env st (joinSpace ("todo.complete" :: args))).1.commands
        = st.commands ++
          [⟨joinSpace ("todo.complete" :: args), ["ERROR: " ++ m], .error⟩]) ∧
    (∀ (env : Env) (st : TermState) (args : List String) (m : String),
      (∀ t ∈ args, ' ' ∉ t.data) →
      jsTrim (joinSpace ("todo.delete" :: args)) = joinSpace ("todo.delete" :: args) →
      (parseArgs args).positional ≠ [] →
      (∀ id, env.deleteTodo id = .err m) →
      (executeCommand env st (joinSpace ("todo.delete" :: args))).1.commands
        = st.commands ++
          [⟨joinSpace ("todo.delete" :: args), ["ERROR: " ++ m], .error⟩]) ∧
    (∀ (env : Env) (st : TermState) (m : String),
      env.timeLogsToday = .err m →
      (executeCommand env st "time.today").1.commands
        = st.commands ++ [⟨"time.today", ["ERROR: " ++ m], .error⟩]) ∧
    (∀ (env : Env) (st : TermState) (m : String),
      env.eventsToday = .err m →
      (executeCommand env st "cal.today").1.commands
        = st.commands ++ [⟨"cal.today", ["ERROR: " ++ m], .error⟩]) ∧
    (∀ (env : Env) (st : TermState) (args : List String) (m : String),
      (∀ t ∈ args, ' ' ∉ t.data) →
      jsTrim (joinSpace ("note.search" :: args)) = joinSpace ("note.search" :: args) →
      (parseArgs args).positional ≠ [] →
      (∀ k, env.notesSearch k = .err m) →
      (executeCommand env st (joinSpace ("note.search" :: args))).1.commands
        = st.commands ++
          [⟨joinSpace ("note.search" :: args), ["ERROR: " ++ m], .error⟩]) ∧
    (∀ (env : Env) (st : TermState) (m : String),
      (∀ f, env.todosQuery f = .thrown m) →
      (executeCommand env st "todo.list").1.commands
        = st.commands ++ [⟨"todo.list", ["ERROR: Failed to fetch todos"], .error⟩]) ∧
    (∀ (env : Env) (st : TermState) (args : List String) (m : String),
      (∀ t ∈ args, ' ' ∉ t.data) →
      jsTrim (joinSpace ("todo.complete" :: args)) = joinSpace ("todo.complete" :: args) →
      (parseArgs args).positional ≠ [] →
      (∀ id, env.updateTodoCompleted id = .thrown m) →
      (executeCommand env st (joinSpace ("todo.complete" :: args))).1.commands
        = st.commands ++
          [⟨joinSpace ("todo.complete" :: args),
            ["ERROR: Failed to complete todo"], .error⟩]) ∧
    (∀ (env : Env) (st : TermState) (args : List String) (m : String),
      (∀ t ∈ args, ' ' ∉ t.data) →
      jsTrim (joinSpace ("todo.delete" :: args)) = joinSpace ("todo.delete" :: args) →
      (parseArgs args).positional ≠ [] →
      (∀ id, env.deleteTodo id = .thrown m) →
      (executeCommand env st (joinSpace ("todo.delete" :: args))).1.commands
        = st.commands ++
          [⟨joinSpace ("todo.delete" :: args),
            ["ERROR: Failed to delete todo"], .error⟩]) ∧
    (∀ (env : Env) (st : TermState) (m : String),
      env.timeLogsToday = .thrown m →
      (executeCommand env st "time.today").1.commands
        = st.commands ++
          [⟨"time.today", ["ERROR: Failed to fetch time logs"], .error⟩]) ∧
    (∀ (env : Env) (st : TermState) (m : String),
      env.eventsToday = .thrown m →
      (executeCommand env st "cal.today").1.commands
        = st.commands ++
          [⟨"cal.today", ["ERROR: Failed to fetch calendar events"], .error⟩]) ∧
    (∀ (env : Env) (st : TermState) (args : List String) (m : String),
      (∀ t ∈ args, ' ' ∉ t.data) →
      jsTrim (joinSpace ("note.search" :: args)) = joinSpace ("note.search" :: args) →
      (parseArgs args).positional ≠ [] →
      (∀ k, env.notesSearch k = .thrown m) →
      (executeCommand env st (joinSpace ("note.search" :: args))).1.commands
        = st.commands ++
          [⟨joinSpace ("note.search" :: args),
            ["ERROR: Failed to search notes"], .error⟩]) := by
  refine ⟨?_, ?_, ?_, ?_, ?_, ?_, ?_, ?_, ?_, ?_, ?_, ?_, ?_, ?_⟩
  · intro env st args tl m hargs htr hpos hact hfail
    rw [timeStart_throw_run env st args tl m hargs htr hpos hact hfail]
  · intro env st tl m hact hfail
    rw [executeCommand_single env st "time.stop" (by decide) (by decide) (by decide)
        (by decide),
      runSwitch_timeStop]
    unfold timeStopCmd
    simp only []
    rw [hact]
    simp only []
    rw [hfail]
    unfold finishRun
    simp [toString_str, append_empty_str, empty_append_str]
  · intro env st m hq
    rw [executeCommand_single env st "todo.list" (by decide) (by decide) (by decide)
        (by decide),
      runSwitch_todoList]
    unfold todoListCmd
    simp only []
    rw [hq]
    unfold finishRun
    simp [toString_str, append_empty_str, empty_append_str]
  · intro env st args m hargs htr hpos hq
    rw [executeCommand_cons env st "todo.complete" args (by decide) (by decide)
        (by decide) hargs htr,
      runSwitch_todoComplete]
    unfold todoCompleteCmd
    simp only []
    rw [if_neg (length_not_lt_one _ hpos), hq]
    unfold finishRun
    simp [toString_str, append_empty_str, empty_append_str]
  · intro env st args m hargs htr hpos hq
    rw [executeCommand_cons env st "todo.delete" args (by decide) (by decide)
        (by decide) hargs htr,
      runSwitch_todoDelete]
    unfold todoDeleteCmd
    simp only []
    rw [if_neg (length_not_lt_one _ hpos), hq]
    unfold finishRun
    simp [toString_str, append_empty_str, empty_append_str]
  · intro env st m hq
    rw [executeCommand_single env st "time.today" (by decide) (by decide) (by decide)
        (by decide),
      runSwitch_timeToday]
    unfold timeTodayCmd
    simp only []
    rw [hq]
    unfold finishRun
    simp [toString_str, append_empty_str, empty_append_str]
  · intro env st m hq
    rw [executeCommand_single env st "cal.today" (by decide) (by decide) (by decide)
        (by decide),
      runSwitch_calToday]
    unfold calTodayCmd
    simp only []
    rw [hq]
    unfold finishRun
    simp [toString_str, append_empty_str, empty_append_str]
  · intro env st args m hargs htr hpos hq
    rw [executeCommand_cons env st "note.search" args (by decide) (by decide)
        (by decide) hargs htr,
      runSwitch_noteSearch]
    unfold noteSearchCmd
    simp only []
    rw [if_neg (length_not_lt_one _ hpos), hq]
    unfold finishRun
    simp [toString_str, append_empty_str, empty_append_str]
  · intro env st m hq
    rw [executeCommand_single env st "todo.list" (by decide) (by decide) (by decide)
        (by decide),
      runSwitch_todoList]
    unfold todoListCmd
    simp only []
    rw [hq]
    unfold finishRun
    simp [toString_str, append_empty_str, empty_append_str]
  · intro env st args m hargs htr hpos hq
    rw [executeCommand_cons env st "todo.complete" args (by decide) (by decide)
        (by decide) hargs htr,
      runSwitch_todoComplete]
    unfold todoCompleteCmd
    simp only []
    rw [if_neg (length_not_lt_one _ hpos), hq]
    unfold finishRun
    simp [toString_str, append_empty_str, empty_append_str]
  · intro env st args m hargs htr hpos hq
    rw [executeCommand_cons env st "todo.delete" args (by decide) (by decide)
        (by decide) hargs htr,
      runSwitch_todoDelete]
    unfold todoDeleteCmd
    simp only []
    rw [if_neg (length_not_lt_one _ hpos), hq]
    unfold finishRun
    simp [toString_str, append_empty_str, empty_append_str]
  · intro env st m hq
    rw [executeCommand_single env st "time.today" (by decide) (by decide) (by decide)
        (by decide),
      runSwitch_timeToday]
    unfold timeTodayCmd
    simp only []
    rw [hq]
    unfold finishRun
    simp [toString_str, append_empty_str, empty_append_str]
  · intro env st m hq
    rw [executeCommand_single env st "cal.today" (by decide) (by decide) (by decide)
        (by decide),
      runSwitch_calToday]
    unfold calTodayCmd
    simp only []
    rw [hq]
    unfold finishRun
    simp [toString_str, append_empty_str, empty_append_str]
  · intro env st args m hargs htr hpos hq
    rw [executeCommand_cons env st "note.search" args (by decide) (by decide)
        (by decide) hargs htr,
      runSwitch_noteSearch]
    unfold noteSearchCmd
    simp only []
    rw [if_neg (length_not_lt_one _ hpos), hq]
    unfold finishRun
    simp [toString_str, append_empty_str, empty_append_str]

theorem collaborator_error_reporting_witness :
    (executeCommand envThrow stT "time.start Email").1.commands
      = [⟨"time.start Email",
          ["ERROR: Command execution failed", "Details: network unreachable"],
          .error⟩] ∧
    (executeCommand envDb st0 "todo.list").1.commands
      = [⟨"todo.list", ["ERROR: connection reset"], .error⟩] ∧
    (executeCommand envThrownToday st0 "time.today").1.commands
      = [⟨"time.today", ["ERROR: Failed to fetch time logs"], .error⟩] :=
  ⟨collaborator_error_reporting_amended.1 envThrow stT ["Email"] ⟨"Work", 0⟩
      "network unreachable" (by decide) (by decide) (by decide) rfl rfl,
   collaborator_error_reporting_amended.2.2.1 envDb st0 "connection reset"
      (fun _ => rfl),
   collaborator_error_reporting_amended.2.2.2.2.2.2.2.2.2.2.2.1 envThrownToday st0
      "db exploded" rfl⟩

/-! Section: Theme changing (claim C3) -/

/-- A concrete key-value store for witnesses. -/
def store0 : KVStore := ⟨none, none⟩

/-- C3 counterexample: `theme.change -green` does not validate `green`;
the dash-prefixed token is swallowed by the short-flag branch of the
argument parser, so the handler sees no argument and reports the
missing-theme usage error, leaving the stored theme unchanged. -/
theorem themeChange_dash_counterexample :
    (executeCommand env0 st0 "theme.change -green").1.currentTheme = "purple" ∧
    (executeCommand env0 st0 "theme.change -green").1.commands
      = [⟨"theme.change -green", themeUsageOutput, .error⟩] ∧
    ("purple" : String) ≠ "green" :=
  ⟨by decide, by decide, by decide⟩

/-- C3 (amended): an *undashed* single argument is validated against the
closed enumeration {green, purple, red, black}: a valid theme yields a
success entry, updates the current theme and persists it; an invalid one
yields an error entry listing the valid options and leaves the theme
unchanged.  A *dash-prefixed* argument, however, never reaches the
handler: an unknown short flag is silently dropped by the argument parser,
so the command reports the missing-theme usage error and the theme is
unchanged. -/
theorem themeChange_validation_amended :
    (∀ (env : Env) (st : TermState) (store : KVStore) (t : String),
      ' ' ∉ t.data → startsDash1 t = false →
      jsTrim (joinSpace ["theme.change", t]) = joinSpace ["theme.change", t] →
      ((t ∈ ["green", "purple", "red", "black"] →
        (executeCommand env st (joinSpace ["theme.change", t])).1.currentTheme = t ∧
        (executeCommand env st (joinSpace ["theme.change", t])).1.commands
          = st.commands ++
            [⟨joinSpace ["theme.change", t],
              ["[✓] Theme changed to " ++ jsToUpper t,
               "Color scheme updated successfully",
               "Theme persisted to local storage"], .success⟩] ∧
        saveThemeEffect (executeCommand env st (joinSpace ["theme.change", t])).1 store
          = { store with cyberTerminalTheme := some t }) ∧
       (t ∉ ["green", "purple", "red", "black"] →
        (executeCommand env st (joinSpace ["theme.change", t])).1.currentTheme
            = st.currentTheme ∧
        (executeCommand env st (joinSpace ["theme.change", t])).1.commands
          = st.commands ++
            [⟨joinSpace ["theme.change", t],
              ["ERROR: Invalid theme \x27" ++ t ++ "\x27",
               "Available themes: green, purple, red, black"], .error⟩]))) ∧
    (∀ (env : Env) (st : TermState) (t : String),
      startsDash1 t = true → startsDash2 t = false → t.length > 1 →
      flagMap (jsSubstring1 t) = none → ' ' ∉ t.data →
      jsTrim (joinSpace ["theme.change", t]) = joinSpace ["theme.change", t] →
      (executeCommand env st (joinSpace ["theme.change", t])).1.currentTheme
          = st.currentTheme ∧
      (executeCommand env st (joinSpace ["theme.change", t])).1.commands
        = st.commands ++
          [⟨joinSpace ["theme.change", t], themeUsageOutput, .error⟩]) := by
  constructor
  · intro env st store t hsp hd htr
    have h2 := startsDash2_false_of_dash1 t hd
    have hpa := parseArgs_single_plain t h2 hd
    rw [executeCommand_cons env st "theme.change" [t] (by decide) (by decide) (by decide)
        (by intro x hx; simp only [List.mem_cons, List.not_mem_nil, or_false] at hx
            subst hx; exact hsp) htr,
      runSwitch_themeChange, hpa]
    unfold themeChangeCmd
    simp only [List.headD_cons]
    rw [if_neg (by simp), show (if startsDash1 t = true then jsSubstring1 t else t) = t
        from by simp [hd]]
    constructor
    · intro hmem
      rw [if_pos hmem]
      unfold finishRun saveThemeEffect
      simp [toString_str, append_empty_str, empty_append_str]
    · intro hmem
      rw [if_neg hmem]
      unfold finishRun
      simp [toString_str, append_empty_str, empty_append_str]
  · intro env st t hd1 hd2 hlen hflag hsp htr
    have hpa := parseArgs_single_shortUnknown t hd2 hd1 hlen hflag
    rw [executeCommand_cons env st "theme.change" [t] (by decide) (by decide) (by decide)
        (by intro x hx; simp only [List.mem_cons, List.not_mem_nil, or_false] at hx
            subst hx; exact hsp) htr,
      runSwitch_themeChange, hpa]
    unfold themeChangeCmd
    simp only []
    rw [if_pos (by simp)]
    unfold finishRun
    simp [toString_str, append_empty_str, empty_append_str]

theorem themeChange_validation_witness :
    (executeCommand env0 st0 "theme.change red").1.currentTheme = "red" ∧
    (executeCommand env0 st0 "theme.change bogus").1.currentTheme = "purple" ∧
    saveThemeEffect (executeCommand env0 st0 "theme.change red").1 store0
      = { store0 with cyberTerminalTheme := some "red" } :=
  ⟨((themeChange_validation_amended.1 env0 st0 store0 "red"
      (by decide) (by decide) (by decide)).1 (by decide)).1,
   ((themeChange_validation_amended.1 env0 st0 store0 "bogus"
      (by decide) (by decide) (by decide)).2 (by decide)).1,
   ((themeChange_validation_amended.1 env0 st0 store0 "red"
      (by decide) (by decide) (by decide)).1 (by decide)).2.2⟩

/-! Section: Adding todos (claim C5) -/

/-- C5: a `todo.add` invocation with non-empty positional text creates
exactly one task whose text is the positional tokens joined by single
spaces with all quote characters removed; a truthy priority flag value in
{low, medium, high} is used exactly, and a falsy or missing flag defaults
to `medium`. -/
theorem todoAdd_priority (env : Env) (st : TermState) (args : List String)
    (hargs : ∀ t ∈ args, ' ' ∉ t.data)
    (htr : jsTrim (joinSpace ("todo.add" :: args)) = joinSpace ("todo.add" :: args))
    (hpos : (parseArgs args).positional ≠ []) :
    (∀ v : String,
      jsOr (lookupJs (parseArgs args).parsed "--priority")
          (lookupJs (parseArgs args).parsed "-p") = some v →
      v ∈ ["low", "medium", "high"] →
      (executeCommand env st (joinSpace ("todo.add" :: args))).2.todosAdded
          = [(stripQuotes (joinSpace (parseArgs args).positional), v)] ∧
      (executeCommand env st (joinSpace ("todo.add" :: args))).1.commands
          = st.commands ++
            [⟨joinSpace ("todo.add" :: args),
              ["[✓] Task added: \"" ++ stripQuotes (joinSpace (parseArgs args).positional)
                ++ "\" (priority: " ++ v ++ ")"], .success⟩]) ∧
    (truthy (jsOr (lookupJs (parseArgs args).parsed "--priority")
          (lookupJs (parseArgs args).parsed "-p")) = false →
      (executeCommand env st (joinSpace ("todo.add" :: args))).2.todosAdded
          = [(stripQuotes (joinSpace (parseArgs args).positional), "medium")] ∧
      (executeCommand env st (joinSpace ("todo.add" :: args))).1.commands
          = st.commands ++
            [⟨joinSpace ("todo.add" :: args),
              ["[✓] Task added: \"" ++ stripQuotes (joinSpace (parseArgs args).positional)
                ++ "\" (priority: " ++ "medium" ++ ")"], .success⟩]) := by
  rw [executeCommand_cons env st "todo.add" args (by decide) (by decide) (by decide)
      hargs htr,
    runSwitch_todoAdd]
  unfold todoAddCmd
  simp only []
  rw [if_neg (length_not_lt_one _ hpos)]
  constructor
  · intro v hv hmem
    have hv' : truthy (some v) = true := by
      have h2 := hmem
      simp only [List.mem_cons, List.not_mem_nil, or_false] at h2
      rcases h2 with rfl | rfl | rfl <;> decide
    rw [jsOr_chain_truthy _ _ (some "medium") v hv hv']
    simp only [Option.getD_some]
    rw [if_pos hmem]
    unfold finishRun
    simp [toString_str, append_empty_str, empty_append_str]
  · intro hf
    rw [jsOr_chain_falsy _ _ (some "medium") hf]
    simp only [Option.getD_some]
    rw [if_pos (show ("medium" : String) ∈ ["low", "medium", "high"] by decide)]
    unfold finishRun
    simp [toString_str, append_empty_str, empty_append_str]

theorem todoAdd_priority_witness :
    (executeCommand env0 st0 "todo.add \"Ship release\" -p high").2.todosAdded
      = [("Ship release", "high")] ∧
    (executeCommand env0 st0 "todo.add Review code").2.todosAdded
      = [("Review code", "medium")] :=
  ⟨((todoAdd_priority env0 st0 ["\"Ship", "release\"", "-p", "high"]
      (by decide) (by decide) (by decide)).1 "high" (by decide) (by decide)).1,
   ((todoAdd_priority env0 st0 ["Review", "code"]
      (by decide) (by decide) (by decide)).2 (by decide)).1⟩

end CyberTerm
